import Mathlib

/-!
Verification development for the KOSCOM K-WON compliance/audit backplane.

The Python source is shallowly embedded:
* bytes are `List Nat` (each element < 256), machine words are `Nat`
  reduced `% 2 ^ 32` where the source overflows;
* Python `float` arithmetic is modelled exactly over `ℚ` (the policy and
  risk engines only add, multiply and divide; all comparisons in the
  claims are far from the binary-float rounding error);
* fallible lookups are `Option`;
* external effects (database rows, notifications) are explicit state.
-/

namespace Koscom

/- Core marks the `Rat` field operations `@[irreducible]`; proofs below
evaluate policy arithmetic on concrete rationals, so restore the default
reducibility of these plain definitions for unfolding. -/
set_option allowUnsafeReducibility true in
attribute [semireducible] Rat.ofScientific Rat.mul Rat.inv Rat.add Rat.sub Rat.div
  Rat.neg Rat.blt

/-! ## SHA-256 (hashlib.sha256), executable over byte lists -/

/-- Right rotation of a 32-bit word held in a `Nat`. -/
def rotr32 (x n : Nat) : Nat :=
  ((x >>> n) ||| (x <<< (32 - n))) % 4294967296

/-- Bitwise complement of a 32-bit word held in a `Nat`. -/
def not32 (x : Nat) : Nat := 4294967295 ^^^ x

/-- The SHA-256 round constants. -/
def shaK : List Nat :=
  [1116352408, 1899447441, 3049323471, 3921009573, 961987163, 1508970993,
   2453635748, 2870763221, 3624381080, 310598401, 607225278, 1426881987,
   1925078388, 2162078206, 2614888103, 3248222580, 3835390401, 4022224774,
   264347078, 604807628, 770255983, 1249150122, 1555081692, 1996064986,
   2554220882, 2821834349, 2952996808, 3210313671, 3336571891, 3584528711,
   113926993, 338241895, 666307205, 773529912, 1294757372, 1396182291,
   1695183700, 1986661051, 2177026350, 2456956037, 2730485921, 2820302411,
   3259730800, 3345764771, 3516065817, 3600352804, 4094571909, 275423344,
   430227734, 506948616, 659060556, 883997877, 958139571, 1322822218,
   1537002063, 1747873779, 1955562222, 2024104815, 2227730452, 2361852424,
   2428436474, 2756734187, 3204031479, 3329325298]

/-- The SHA-256 initial hash state. -/
def shaH0 : List Nat :=
  [0x6a09e667, 0xbb67ae85, 0x3c6ef372, 0xa54ff53a,
   0x510e527f, 0x9b05688c, 0x1f83d9ab, 0x5be0cd19]

/-- Group a byte list into big-endian 32-bit words. -/
def wordsOfBytes : List Nat → List Nat
  | b0 :: b1 :: b2 :: b3 :: rest =>
      (b0 * 16777216 + b1 * 65536 + b2 * 256 + b3) :: wordsOfBytes rest
  | _ => []

/-- Big-endian bytes of one 32-bit word. -/
def bytesOfWord (w : Nat) : List Nat :=
  [w / 16777216 % 256, w / 65536 % 256, w / 256 % 256, w % 256]

/-- Extend the 16 message-schedule words to 64, one word per fuel step. -/
def shaSchedule (w : List Nat) : Nat → List Nat
  | 0 => w
  | fuel + 1 =>
      let i := w.length
      let w15 := w.getD (i - 15) 0
      let w2 := w.getD (i - 2) 0
      let s0 := rotr32 w15 7 ^^^ rotr32 w15 18 ^^^ (w15 >>> 3)
      let s1 := rotr32 w2 17 ^^^ rotr32 w2 19 ^^^ (w2 >>> 10)
      let nw := (w.getD (i - 16) 0 + s0 + w.getD (i - 7) 0 + s1) % 4294967296
      shaSchedule (w ++ [nw]) fuel

/-- One SHA-256 compression round on the running state `[a,b,c,d,e,f,g,h]`. -/
def shaRound (st : List Nat) (kw : Nat × Nat) : List Nat :=
  match st with
  | [a, b, c, d, e, f, g, h] =>
      let s1 := rotr32 e 6 ^^^ rotr32 e 11 ^^^ rotr32 e 25
      let ch := (e &&& f) ^^^ (not32 e &&& g)
      let t1 := (h + s1 + ch + kw.1 + kw.2) % 4294967296
      let s0 := rotr32 a 2 ^^^ rotr32 a 13 ^^^ rotr32 a 22
      let maj := (a &&& b) ^^^ (a &&& c) ^^^ (b &&& c)
      let t2 := (s0 + maj) % 4294967296
      [(t1 + t2) % 4294967296, a, b, c, (d + t1) % 4294967296, e, f, g]
  | other => other

/-- Compress one padded 64-byte block into the running hash state. -/
def shaCompress (h : List Nat) (block : List Nat) : List Nat :=
  let w := shaSchedule (wordsOfBytes block) 48
  let st := (shaK.zip w).foldl shaRound h
  (h.zip st).map (fun p => (p.1 + p.2) % 4294967296)

/-- Split a byte list into 64-byte chunks. The fuel argument (instantiated
with the list length, which bounds the chunk count) keeps the recursion
structural so that proofs can evaluate it by kernel reduction. -/
def chunks64Aux : Nat → List Nat → List (List Nat)
  | _, [] => []
  | 0, _ => []
  | fuel + 1, l@(_ :: _) => l.take 64 :: chunks64Aux fuel (l.drop 64)

/-- Split a byte list into 64-byte chunks. -/
def chunks64 (l : List Nat) : List (List Nat) := chunks64Aux l.length l

/-- SHA-256 padding: append `0x80`, zeros, and the 64-bit bit length. -/
def shaPad (msg : List Nat) : List Nat :=
  let L := msg.length
  let zeros := (64 - (L + 9) % 64) % 64
  let bits := 8 * L
  msg ++ [0x80] ++ List.replicate zeros 0 ++
    [bits / 72057594037927936 % 256, bits / 281474976710656 % 256,
     bits / 1099511627776 % 256, bits / 4294967296 % 256,
     bits / 16777216 % 256, bits / 65536 % 256, bits / 256 % 256, bits % 256]

/-- SHA-256 of a byte list, as a 32-byte list. -/
def sha256 (msg : List Nat) : List Nat :=
  ((chunks64 (shaPad msg)).foldl shaCompress shaH0).flatMap bytesOfWord

/-! ## Hex encoding and decoding (`bytes.fromhex` / `bytes.hex`) -/

/-- Value of one hex digit; undefined digits map to 0 (only used on valid hex). -/
def hexVal (c : Char) : Nat :=
  if '0' ≤ c ∧ c ≤ '9' then c.toNat - 48
  else if 'a' ≤ c ∧ c ≤ 'f' then c.toNat - 87
  else if 'A' ≤ c ∧ c ≤ 'F' then c.toNat - 55
  else 0

/-- Lowercase hex digit of a value below 16. -/
def hexDigit (n : Nat) : Char :=
  if n < 10 then Char.ofNat (48 + n) else Char.ofNat (87 + n)

/-- Decode pairs of hex characters into bytes (`bytes.fromhex`). -/
def bytesFromHexList : List Char → List Nat
  | c1 :: c2 :: rest => (hexVal c1 * 16 + hexVal c2) :: bytesFromHexList rest
  | _ => []

/-- Decode a hex string into bytes. -/
def bytesFromHex (s : String) : List Nat := bytesFromHexList s.data

/-- Encode bytes as a lowercase hex string (`bytes.hex`). -/
def hexOfBytes (bs : List Nat) : String :=
  ⟨bs.flatMap (fun b => [hexDigit (b / 16), hexDigit (b % 16)])⟩

/-- SHA-256 of a byte list as lowercase hex (`sha256_hex` in hash_utils.py). -/
def sha256_hex (data : List Nat) : String := hexOfBytes (sha256 data)

/-- FIPS 180-4 test vector: SHA-256 of the empty message. -/
theorem sha256_empty_vector :
    sha256_hex [] = "e3b0c44298fc1c149afbf4c8996fb92427ae41e4649b934ca495991b7852b855" := by
  decide

/-- FIPS 180-4 test vector: SHA-256 of the three bytes "abc". -/
theorem sha256_abc_vector :
    sha256_hex [97, 98, 99] =
      "ba7816bf8f01cfea414140de5dae2223b00361a396177a9cb410ff61f20015ad" := by
  decide

/-! ## Merkle tree with proofs (hash_utils.merkle_tree_with_proofs)

The source builds layers of raw bytes decoded from the hex leaves, pairs
adjacent nodes (duplicating an odd tail), and records for the pair at layer
positions `li = i`, `ri = min(i+1, len-1)` a proof node in `proofs[li]` /
`proofs[ri]` — indices into the leaf-indexed `proofs` array. -/

/-- A proof-path entry `{pos: 'L'|'R', hash: <hex>}`. -/
structure ProofNode where
  pos : String
  hash : String
deriving DecidableEq, Repr

/-- One pass of `for i in range(0, len(curr), 2)`: the next layer together
with the `(index, node)` appends the source records, where the index is the
layer-local position `li` / `ri` (`i` tracks the absolute offset). A lone
tail node is its own sibling: `ri == li`, so only the `R` append happens. -/
def merklePairs : List (List Nat) → Nat → List (List Nat) × List (Nat × ProofNode)
  | [], _ => ([], [])
  | [x], i => ([sha256 (x ++ x)], [(i, ⟨"R", hexOfBytes x⟩)])
  | x :: y :: rest, i =>
      let r := merklePairs rest (i + 2)
      (sha256 (x ++ y) :: r.1,
        (i, ⟨"R", hexOfBytes y⟩) :: (i + 1, ⟨"L", hexOfBytes x⟩) :: r.2)

/-- Append a proof node to the list at position `i` (`proofs[i].append(...)`). -/
def appendAt : List (List ProofNode) → Nat → ProofNode → List (List ProofNode)
  | [], _, _ => []
  | l :: ls, 0, nd => (l ++ [nd]) :: ls
  | l :: ls, i + 1, nd => l :: appendAt ls i nd

/-- Apply the recorded appends in order. -/
def applyAppends (ps : List (List ProofNode)) (ups : List (Nat × ProofNode)) :
    List (List ProofNode) :=
  ups.foldl (fun acc u => appendAt acc u.1 u.2) ps

/-- The `while len(layers[-1]) > 1` loop. The fuel (instantiated with the
leaf count, which bounds the layer count) keeps the recursion structural. -/
def merkleLoop : Nat → List (List Nat) → List (List ProofNode) →
    List (List Nat) × List (List ProofNode)
  | 0, curr, proofs => (curr, proofs)
  | fuel + 1, curr, proofs =>
      if curr.length ≤ 1 then (curr, proofs)
      else
        let r := merklePairs curr 0
        merkleLoop fuel r.1 (applyAppends proofs r.2)

/-- Build a SHA-256 Merkle tree; return `(root_hex, proofs_by_index)`. -/
def merkle_tree_with_proofs (leaves_hex : List String) :
    String × List (List ProofNode) :=
  match leaves_hex with
  | [] => ("", [])
  | _ :: _ =>
      let r := merkleLoop leaves_hex.length (leaves_hex.map bytesFromHex)
        (leaves_hex.map fun _ => ([] : List ProofNode))
      (hexOfBytes (r.1.headD []), r.2)

/-- One verification step: `node = SHA256(sibling||node)` if the sibling is
`L`, else `SHA256(node||sibling)` (§4.1 of the spec; also the procedure in
the proof-pack README shipped by mcp_koscom.py). -/
def foldNode (node : String) (nd : ProofNode) : String :=
  if nd.pos = "L" then hexOfBytes (sha256 (bytesFromHex nd.hash ++ bytesFromHex node))
  else hexOfBytes (sha256 (bytesFromHex node ++ bytesFromHex nd.hash))

/-- Fold a leaf upward through its proof path. -/
def foldProof (leaf : String) (path : List ProofNode) : String :=
  path.foldl foldNode leaf

/-- Hex digits round-trip through their value. -/
theorem hexVal_hexDigit (n : Nat) (h : n < 16) : hexVal (hexDigit n) = n := by
  interval_cases n <;> decide

/-- Decoding inverts encoding, at the character-list level. -/
theorem bytesFromHexList_enc (bs : List Nat) (h : ∀ b ∈ bs, b < 256) :
    bytesFromHexList (bs.flatMap fun b => [hexDigit (b / 16), hexDigit (b % 16)]) = bs := by
  induction bs with
  | nil => rfl
  | cons b bs ih =>
      have hb : b < 256 := h b (List.mem_cons_self b bs)
      have hdiv : b / 16 < 16 := by omega
      have hmod : b % 16 < 16 := Nat.mod_lt _ (by norm_num)
      have htail := ih fun x hx => h x (List.mem_cons_of_mem _ hx)
      have hb' : b / 16 * 16 + b % 16 = b := by omega
      simp only [List.flatMap_cons, List.cons_append, List.nil_append,
        bytesFromHexList, hexVal_hexDigit _ hdiv, hexVal_hexDigit _ hmod, hb']
      simpa [List.flatMap] using htail

/-- Decoding inverts encoding on genuine byte lists. -/
theorem bytesFromHex_hexOfBytes (bs : List Nat) (h : ∀ b ∈ bs, b < 256) :
    bytesFromHex (hexOfBytes bs) = bs :=
  bytesFromHexList_enc bs h



/-- A concrete 32-byte leaf: 32 zero bytes. -/
def leafZero32 : String := hexOfBytes (List.replicate 32 0)

/-- A concrete 32-byte leaf: 31 zero bytes then one byte 1. -/
def leafOne32 : String := hexOfBytes (List.replicate 31 0 ++ [1])

/-- A concrete 32-byte leaf: 31 zero bytes then one byte 2. -/
def leafTwo32 : String := hexOfBytes (List.replicate 31 0 ++ [2])

set_option maxRecDepth 8192 in
/-- C1: refuted on the code. For the three 32-byte leaves above,
`merkle_tree_with_proofs` returns proofs such that leaf 0 folds to the
root, but leaves 1 and 2 do not: the source records the upper-layer
siblings at layer-local indices `li`/`ri` into the leaf-indexed `proofs`
array, so every leaf whose position in a higher layer differs from its
leaf index receives the wrong sibling (or none at all). -/
theorem C1_merkle_proofs_do_not_fold_to_root :
    (merkle_tree_with_proofs [leafZero32, leafOne32, leafTwo32]).2.length = 3 ∧
    foldProof leafZero32
        ((merkle_tree_with_proofs [leafZero32, leafOne32, leafTwo32]).2.getD 0 []) =
      (merkle_tree_with_proofs [leafZero32, leafOne32, leafTwo32]).1 ∧
    foldProof leafOne32
        ((merkle_tree_with_proofs [leafZero32, leafOne32, leafTwo32]).2.getD 1 []) ≠
      (merkle_tree_with_proofs [leafZero32, leafOne32, leafTwo32]).1 ∧
    foldProof leafTwo32
        ((merkle_tree_with_proofs [leafZero32, leafOne32, leafTwo32]).2.getD 2 []) ≠
      (merkle_tree_with_proofs [leafZero32, leafOne32, leafTwo32]).1 := by
  decide

/-- C5 counterexample: for a single 32-byte leaf the returned root is the
leaf itself, not the SHA-256 of the leaf as the claim states. -/
theorem C5_single_leaf_root_not_hashed :
    (merkle_tree_with_proofs [leafZero32]).1 = leafZero32 ∧
    (merkle_tree_with_proofs [leafZero32]).1 ≠ sha256_hex (bytesFromHex leafZero32) := by
  decide

/-- C5 amended: for a Merkle tree built from exactly one leaf, the returned
root is the (hex of the) leaf itself and the leaf's proof path is empty. -/
theorem C5_single_leaf_root_is_leaf (bs : List Nat) (h : ∀ b ∈ bs, b < 256) :
    merkle_tree_with_proofs [hexOfBytes bs] = (hexOfBytes bs, [[]]) := by
  have hloop : ∀ (x : List Nat) (ps : List (List ProofNode)),
      merkleLoop 1 [x] ps = ([x], ps) := fun _ _ => rfl
  simp [merkle_tree_with_proofs, hloop, bytesFromHex_hexOfBytes bs h]

/-- C5 amended claim instantiated at a concrete 32-byte leaf. -/
theorem C5_single_leaf_witness :
    merkle_tree_with_proofs [hexOfBytes (List.replicate 32 0)] =
      (hexOfBytes (List.replicate 32 0), [[]]) :=
  C5_single_leaf_root_is_leaf (List.replicate 32 0) (by decide)

/-! ## Canonical JSON and details hash (hash_utils.canonical_json,
hash_utils.details_hash_from_tx) -/

/-- UTF-8 encoding of one character (`str.encode("utf-8")`). -/
def utf8Encode (c : Char) : List Nat :=
  let n := c.toNat
  if n < 128 then [n]
  else if n < 2048 then [192 ||| (n >>> 6), 128 ||| (n &&& 63)]
  else if n < 65536 then
    [224 ||| (n >>> 12), 128 ||| ((n >>> 6) &&& 63), 128 ||| (n &&& 63)]
  else
    [240 ||| (n >>> 18), 128 ||| ((n >>> 12) &&& 63),
     128 ||| ((n >>> 6) &&& 63), 128 ||| (n &&& 63)]

/-- UTF-8 bytes of a string. -/
def utf8Bytes (s : String) : List Nat := s.data.flatMap utf8Encode

/-- Python `a or b` on an optional string: `None` and `""` are falsy. -/
def pyOrStr (a : Option String) (b : String) : String :=
  match a with
  | some s => if s = "" then b else s
  | none => b

/-- A Python value as it appears in an Etherscan transfer row: absent/None,
a string, or an integer. -/
inductive PyVal where
  | vnone
  | vstr (s : String)
  | vint (n : Int)
deriving DecidableEq, Repr

/-- Python `str()` (note `str(None) = "None"`). -/
def pyStr : PyVal → String
  | .vnone => "None"
  | .vstr s => s
  | .vint n => toString n

/-- ASCII lowercasing of one character. Python `str.lower()` is
Unicode-aware, but the embedded rows carry only ASCII hex addresses and
Hangul names (which have no case), where the two agree. -/
def asciiLower (c : Char) : Char :=
  if 'A' ≤ c ∧ c ≤ 'Z' then Char.ofNat (c.toNat + 32) else c

/-- Lowercase a string character-wise. -/
def lowerStr (s : String) : String := ⟨s.data.map asciiLower⟩

/-- A JSON value occurring in the picked field map: null or a string. -/
inductive JVal where
  | jnull
  | jstr (s : String)
deriving DecidableEq, Repr

/-- JSON string escaping as `json.dumps(..., ensure_ascii=False)` performs
it: backslash, quote, the five short control escapes, `\u00XX` for the
remaining control characters, everything else verbatim. -/
def jsonEscapeChar (c : Char) : List Char :=
  if c = '\\' then ['\\', '\\']
  else if c = '"' then ['\\', '"']
  else if c.toNat = 8 then ['\\', 'b']
  else if c.toNat = 9 then ['\\', 't']
  else if c.toNat = 10 then ['\\', 'n']
  else if c.toNat = 12 then ['\\', 'f']
  else if c.toNat = 13 then ['\\', 'r']
  else if c.toNat < 32 then
    ['\\', 'u', '0', '0', hexDigit (c.toNat / 16), hexDigit (c.toNat % 16)]
  else [c]

/-- JSON encoding of a string, quotes included. -/
def jsonEncodeStr (s : String) : String :=
  ⟨'"' :: (s.data.flatMap jsonEscapeChar ++ ['"'])⟩

/-- JSON encoding of a value. -/
def jsonEncode : JVal → String
  | .jnull => "null"
  | .jstr s => jsonEncodeStr s

/-- Strict lexicographic comparison on code points, as Python compares
strings when `json.dumps(sort_keys=True)` sorts dictionary keys. -/
def charListLt : List Char → List Char → Bool
  | [], [] => false
  | [], _ :: _ => true
  | _ :: _, [] => false
  | a :: as, b :: bs => if a < b then true else if b < a then false else charListLt as bs

/-- Insert one key-value pair into a key-sorted association list. -/
def insertByKey (kv : String × JVal) : List (String × JVal) → List (String × JVal)
  | [] => [kv]
  | h :: t => if charListLt kv.1.data h.1.data then kv :: h :: t else h :: insertByKey kv t

/-- Sort an association list by key (insertion sort). -/
def sortByKey (l : List (String × JVal)) : List (String × JVal) :=
  l.foldr insertByKey []

/-- Join strings with commas (`",".join(...)`). -/
def joinComma : List String → String
  | [] => ""
  | [x] => x
  | x :: y :: rest => x ++ "," ++ joinComma (y :: rest)

/-- Deterministic JSON of a string/null object: sorted keys, compact
separators `(",", ":")`, UTF-8 kept raw (`canonical_json` in hash_utils.py). -/
def canonical_json (obj : List (String × JVal)) : String :=
  "\x7b" ++ joinComma
    ((sortByKey obj).map fun kv => jsonEncodeStr kv.1 ++ ":" ++ jsonEncode kv.2) ++ "\x7d"

/-- An ERC-20 transfer row, restricted to the fields
`details_hash_from_tx` reads. String-typed fields hold `None` or a string;
the numeric columns may also hold integers (`PyVal`). -/
structure TxRow where
  hash : Option String
  blockNumber : PyVal
  timeStamp : PyVal
  fromAddr : Option String
  toAddr : Option String
  contractAddress : Option String
  value : PyVal
  tokenDecimal : PyVal
deriving DecidableEq, Repr

/-- Stable hash for an ERC-20 Transfer log (`details_hash_from_tx`). -/
def details_hash_from_tx (tx : TxRow) : String :=
  let picked : List (String × JVal) := [
    ("hash", match tx.hash with | some s => .jstr s | none => .jnull),
    ("blockNumber", .jstr (pyStr tx.blockNumber)),
    ("timeStamp", .jstr (pyStr tx.timeStamp)),
    ("from", .jstr (lowerStr (pyOrStr tx.fromAddr ""))),
    ("to", .jstr (lowerStr (pyOrStr tx.toAddr ""))),
    ("contractAddress", .jstr (lowerStr (pyOrStr tx.contractAddress ""))),
    ("value", .jstr (pyStr tx.value)),
    ("tokenDecimal", .jstr (pyStr tx.tokenDecimal))]
  sha256_hex (utf8Bytes (canonical_json picked))

/-- The JSON encoding of the `hash` column: the row value verbatim, null
when absent. -/
def jsonOfHash (h : Option String) : JVal :=
  match h with
  | some s => .jstr s
  | none => .jnull

/-- The details hash as §4.1 of the spec words it: the SHA-256 of the
canonical JSON — keys in sorted order with compact separators — of exactly
the field map with addresses lowercased and numeric fields stringified. -/
def detailsHashSpec (tx : TxRow) : String :=
  sha256_hex (utf8Bytes (
    "\x7b" ++ jsonEncodeStr "blockNumber" ++ ":" ++ jsonEncodeStr (pyStr tx.blockNumber) ++
    "," ++ jsonEncodeStr "contractAddress" ++ ":" ++
      jsonEncodeStr (lowerStr (pyOrStr tx.contractAddress "")) ++
    "," ++ jsonEncodeStr "from" ++ ":" ++ jsonEncodeStr (lowerStr (pyOrStr tx.fromAddr "")) ++
    "," ++ jsonEncodeStr "hash" ++ ":" ++ jsonEncode (jsonOfHash tx.hash) ++
    "," ++ jsonEncodeStr "timeStamp" ++ ":" ++ jsonEncodeStr (pyStr tx.timeStamp) ++
    "," ++ jsonEncodeStr "to" ++ ":" ++ jsonEncodeStr (lowerStr (pyOrStr tx.toAddr "")) ++
    "," ++ jsonEncodeStr "tokenDecimal" ++ ":" ++ jsonEncodeStr (pyStr tx.tokenDecimal) ++
    "," ++ jsonEncodeStr "value" ++ ":" ++ jsonEncodeStr (pyStr tx.value) ++ "\x7d"))

/-- C2: for every transfer row, `details_hash_from_tx` equals the SHA-256
(lowercase hex) of the canonical JSON — lexicographically sorted keys,
compact separators, UTF-8, non-ASCII preserved — of exactly the picked
field map, addresses lowercased and numeric fields serialized as strings.
Determinism is immediate: the embedding is a pure function of the row. -/
theorem C2_details_hash_is_canonical_sha256 (tx : TxRow) :
    details_hash_from_tx tx = detailsHashSpec tx := by
  unfold details_hash_from_tx detailsHashSpec
  refine congrArg sha256_hex (congrArg utf8Bytes ?_)
  refine String.ext ?_
  simp [canonical_json, sortByKey, insertByKey, charListLt, joinComma, jsonEncode,
    jsonOfHash, String.data_append, List.append_assoc]

set_option maxRecDepth 8192 in
/-- The details hash evaluated on a concrete row, checked against the value
computed by CPython's json + hashlib on the same row (exercises key
sorting, quote/backslash escaping, lowercasing and integer stringification). -/
theorem details_hash_vector1 :
    details_hash_from_tx ⟨some "0xAbC\"x\\y", .vint 123, .vint 456, some "0xDEADbeef",
        some "0xCAFE", some "0xF00D", .vint 1000, .vint 6⟩ =
      "e4e00bad5a491d1d1bb732bc693deb122f88fce9cf6739e42ffb67caaf904a0a" := by
  decide

set_option maxRecDepth 8192 in
/-- A second reference vector: absent hash (`null`), `None` numerics
(stringified as `"None"`), a Hangul character (kept raw in UTF-8) and a
control character (escaped as `\t`). -/
theorem details_hash_vector2 :
    details_hash_from_tx ⟨none, .vnone, .vstr "7", some "한A\tB",
        none, some "", .vstr "9", .vnone⟩ =
      "413bf93fc1b3e99ff5df2f2a497e30c51aca8a1e3317ea3ae2497d4ab9721b8a" := by
  decide

/-! ## Policy engine (bank_monitering/core/policy_engine.py and
core/constants.py), over exact rationals -/

/-- Severity of a finding. -/
inductive SeverityLevel where
  | OK
  | WARNING
  | CRITICAL
deriving DecidableEq, Repr

/-- Kind of a finding. -/
inductive ViolationType where
  | EXPOSURE_LIMIT
  | CREDIT_RATING_LIMIT
  | MATURITY_DISTRIBUTION
deriving DecidableEq, Repr

/-- A value in a violation's `details` dictionary. -/
inductive DetailVal where
  | ds (v : String)
  | dq (v : ℚ)
  | db (v : Bool)
  | dnone
deriving DecidableEq, Repr

/-- A structured policy violation. The Korean human-readable `message`
(formatted floats) is not modelled; every machine-readable field is. -/
structure PolicyViolation where
  type : ViolationType
  level : SeverityLevel
  code : String
  details : List (String × DetailVal)
deriving DecidableEq, Repr

/-- String lookup of a detail value. -/
def getDetailS (d : List (String × DetailVal)) (k : String) : Option String :=
  match d.find? (fun p => p.1 == k) with
  | some (_, .ds s) => some s
  | _ => none

/-- Rational lookup of a detail value. -/
def getDetailQ (d : List (String × DetailVal)) (k : String) : Option ℚ :=
  match d.find? (fun p => p.1 == k) with
  | some (_, .dq q) => some q
  | _ => none

/-- A maturity-bucket target band (`min_pct`/`max_pct`; both keys are
always present in the configuration dictionaries). -/
structure BucketCfg where
  min_pct : ℚ
  max_pct : ℚ
deriving DecidableEq, Repr

/-- `EXPOSURE_LIMITS` from core/constants.py. -/
def EXPOSURE_LIMITS : List (String × ℚ) :=
  [("single_institution", 0.25), ("group", 0.40), ("policy_bank", 0.30)]

/-- `CREDIT_RATING_MULTIPLIERS` from core/constants.py. -/
def CREDIT_RATING_MULTIPLIERS : List (String × ℚ) :=
  [("AAA", 1.00), ("AA+", 0.90), ("AA", 0.90), ("AA-", 0.90),
   ("A+", 0.70), ("A", 0.70),
   ("A-", 0.50), ("BBB+", 0.50), ("BBB", 0.50), ("BBB-", 0.50),
   ("BB+", 0.50), ("BB", 0.50), ("BB-", 0.50), ("B+", 0.50), ("B", 0.50),
   ("B-", 0.50), ("CCC", 0.50), ("CC", 0.50), ("C", 0.50), ("D", 0.50),
   ("A-이하", 0.50)]

/-- `MATURITY_BUCKETS` from core/constants.py. -/
def MATURITY_BUCKETS : List (String × BucketCfg) :=
  [("OVERNIGHT", ⟨0.30, 0.40⟩), ("WITHIN_7D", ⟨0.20, 0.30⟩),
   ("WITHIN_1M", ⟨0.20, 0.30⟩), ("WITHIN_3M", ⟨0.10, 0.20⟩)]

/-- The engine configuration (`PolicyConfig`), defaults from constants. -/
structure PolicyConfig where
  exposure_limits : List (String × ℚ)
  credit_rating_multipliers : List (String × ℚ)
  maturity_buckets : List (String × BucketCfg)
  warning_threshold : ℚ
  critical_threshold : ℚ
deriving DecidableEq, Repr

/-- The default configuration. -/
def defaultPolicyConfig : PolicyConfig :=
  ⟨EXPOSURE_LIMITS, CREDIT_RATING_MULTIPLIERS, MATURITY_BUCKETS, 0.90, 1.00⟩

/-- Dictionary `get` with default on a rational association list. -/
def lookupD (m : List (String × ℚ)) (k : String) (d : ℚ) : ℚ :=
  match m.find? (fun p => p.1 == k) with
  | some p => p.2
  | none => d

/-- One bank-exposure row as the engine receives it (`BankExposureInput`). -/
structure BankExposureInput where
  bank_id : String
  name : String
  group_id : Option String
  is_policy_bank : Bool
  exposure : ℚ
  credit_rating : Option String
  maturity_bucket : Option String
  type : String
deriving DecidableEq, Repr

/-- Total exposure (`_calc_total_exposure`). -/
def _calc_total_exposure (exposures : List BankExposureInput) : ℚ :=
  (exposures.map (·.exposure)).sum

/-- Severity from the ratio of current value to limit
(`_severity_from_ratio`). -/
def _severity_from_ratio (cfg : PolicyConfig) (ratio : ℚ) : SeverityLevel :=
  if ratio ≥ cfg.critical_threshold then .CRITICAL
  else if ratio ≥ cfg.warning_threshold then .WARNING
  else .OK

/-- The per-row body of the single-institution loop in
`check_exposure_limits`: zero or one `SINGLE_LIMIT` violation. -/
def singleCheckOne (cfg : PolicyConfig) (total single_limit policy_limit : ℚ)
    (e : BankExposureInput) : List PolicyViolation :=
  let share := e.exposure / total
  let limit := if e.is_policy_bank then policy_limit else single_limit
  let ratio := if limit > 0 then share / limit else 0
  let level := _severity_from_ratio cfg ratio
  if level = .OK then []
  else
    let excess_pct := max 0 (share - limit)
    [{ type := .EXPOSURE_LIMIT, level := level, code := "SINGLE_LIMIT",
       details := [("bank_id", .ds e.bank_id), ("bank_name", .ds e.name),
         ("is_policy_bank", .db e.is_policy_bank),
         ("limit_type", .ds (if e.is_policy_bank then "POLICY_BANK" else "SINGLE")),
         ("current_pct", .dq share), ("limit_pct", .dq limit), ("ratio", .dq ratio),
         ("total_exposure", .dq total), ("current_exposure", .dq e.exposure),
         ("excess_pct", .dq excess_pct), ("excess_amount", .dq (excess_pct * total))] }]

/-- Insertion-ordered accumulation mirroring
`dict.setdefault(k, 0.0); dict[k] += v`. -/
def addToSumMap (m : List (String × ℚ)) (k : String) (v : ℚ) : List (String × ℚ) :=
  if m.any (fun p => p.1 == k) then
    m.map (fun p => if p.1 == k then (p.1, p.2 + v) else p)
  else m ++ [(k, v)]

/-- The `group_map` accumulation: rows with a falsy `group_id` (absent or
empty) are skipped. -/
def buildGroupMap (exposures : List BankExposureInput) : List (String × ℚ) :=
  exposures.foldl
    (fun m e =>
      match e.group_id with
      | none => m
      | some g => if g = "" then m else addToSumMap m g e.exposure)
    []

/-- The per-group body of the group loop in `check_exposure_limits`. -/
def groupCheckOne (cfg : PolicyConfig) (total group_limit : ℚ)
    (p : String × ℚ) : List PolicyViolation :=
  let share := p.2 / total
  let ratio := if group_limit > 0 then share / group_limit else 0
  let level := _severity_from_ratio cfg ratio
  if level = .OK then []
  else
    let excess_pct := max 0 (share - group_limit)
    [{ type := .EXPOSURE_LIMIT, level := level, code := "GROUP_LIMIT",
       details := [("group_id", .ds p.1), ("limit_type", .ds "GROUP"),
         ("current_pct", .dq share), ("limit_pct", .dq group_limit), ("ratio", .dq ratio),
         ("total_exposure", .dq total), ("current_exposure", .dq p.2),
         ("excess_pct", .dq excess_pct), ("excess_amount", .dq (excess_pct * total))] }]

/-- `PolicyEngine.check_exposure_limits`. -/
def check_exposure_limits (cfg : PolicyConfig) (exposures : List BankExposureInput) :
    List PolicyViolation :=
  if exposures.isEmpty then []
  else
    let total := _calc_total_exposure exposures
    if total ≤ 0 then []
    else
      let single_limit := lookupD cfg.exposure_limits "single_institution" 0.25
      let policy_limit := lookupD cfg.exposure_limits "policy_bank" 0.30
      let group_limit := lookupD cfg.exposure_limits "group" 0.40
      exposures.flatMap (singleCheckOne cfg total single_limit policy_limit) ++
        (buildGroupMap exposures).flatMap (groupCheckOne cfg total group_limit)

/-- ASCII uppercasing of one character (Hangul has no case, so this agrees
with Python `str.upper()` on the embedded inputs). -/
def asciiUpper (c : Char) : Char :=
  if 'a' ≤ c ∧ c ≤ 'z' then Char.ofNat (c.toNat - 32) else c

/-- Uppercase a string character-wise. -/
def upperStr (s : String) : String := ⟨s.data.map asciiUpper⟩

/-- Remove spaces (`.replace(" ", "")`). -/
def removeSpaces (s : String) : String := ⟨s.data.filter (fun c => c ≠ ' ')⟩

/-- The whitespace characters Python `str.strip()` removes (the ASCII ones,
which are the only whitespace appearing in the embedded strings). -/
def isPySpace (c : Char) : Bool :=
  c = ' ' ∨ c = '\n' ∨ c = '\t' ∨ c = '\r' ∨ c = Char.ofNat 11 ∨ c = Char.ofNat 12

/-- Drop leading whitespace from a character list. -/
def dropLeadingWs : List Char → List Char
  | [] => []
  | c :: cs => if isPySpace c then dropLeadingWs cs else c :: cs

/-- Python `str.strip()`: drop whitespace from both ends. -/
def pyStrip (s : String) : String :=
  ⟨(dropLeadingWs (dropLeadingWs s.data).reverse).reverse⟩

/-- Python `str.startswith`. -/
def pyStartsWith (s pfx : String) : Bool := pfx.data.isPrefixOf s.data

/-- Substring search on character lists. -/
def listContains (pat : List Char) : List Char → Bool
  | [] => pat.isEmpty
  | c :: rest => pat.isPrefixOf (c :: rest) || listContains pat rest

/-- Python membership test `pat in s` (substring). -/
def strContains (s pat : String) : Bool := listContains pat.data s.data

/-- The rating-to-multiplier resolution in `check_credit_rating_limits`:
exact key, then rating-band fallback by leading characters, else the most
conservative 0.50. -/
def ratingMultiplier (cfg : PolicyConfig) (credit_rating : Option String) : ℚ :=
  match credit_rating with
  | none => lookupD cfg.credit_rating_multipliers "A-이하" 0.50
  | some r =>
    if r = "" then lookupD cfg.credit_rating_multipliers "A-이하" 0.50
    else
      let raw := removeSpaces (upperStr r)
      match cfg.credit_rating_multipliers.find? (fun p => p.1 == raw) with
      | some p => p.2
      | none =>
        if pyStartsWith raw "AAA" then lookupD cfg.credit_rating_multipliers "AAA" 1.0
        else if pyStartsWith raw "AA" then lookupD cfg.credit_rating_multipliers "AA" 0.90
        else if pyStartsWith raw "A+" then lookupD cfg.credit_rating_multipliers "A+" 0.70
        else if pyStartsWith raw "A" then lookupD cfg.credit_rating_multipliers "A" 0.70
        else lookupD cfg.credit_rating_multipliers "A-이하" 0.50

/-- A detail value for an optional string column. -/
def detailOfOptStr (s : Option String) : DetailVal :=
  match s with
  | some v => .ds v
  | none => .dnone

/-- The per-row body of `check_credit_rating_limits`. -/
def ratingCheckOne (cfg : PolicyConfig) (total base_single base_policy : ℚ)
    (e : BankExposureInput) : List PolicyViolation :=
  let multiplier := ratingMultiplier cfg e.credit_rating
  let base_limit := if e.is_policy_bank then base_policy else base_single
  let limit_pct := base_limit * multiplier
  let share := e.exposure / total
  let ratio := if limit_pct > 0 then share / limit_pct else 0
  let level := _severity_from_ratio cfg ratio
  if level = .OK then []
  else
    let excess_pct := max 0 (share - limit_pct)
    [{ type := .CREDIT_RATING_LIMIT, level := level, code := "RATING_ADJUSTED_LIMIT",
       details := [("bank_id", .ds e.bank_id), ("bank_name", .ds e.name),
         ("credit_rating", detailOfOptStr e.credit_rating),
         ("multiplier", .dq multiplier), ("limit_pct", .dq limit_pct),
         ("current_pct", .dq share), ("ratio", .dq ratio),
         ("total_exposure", .dq total), ("current_exposure", .dq e.exposure),
         ("excess_pct", .dq excess_pct), ("excess_amount", .dq (excess_pct * total))] }]

/-- `PolicyEngine.check_credit_rating_limits`. -/
def check_credit_rating_limits (cfg : PolicyConfig) (exposures : List BankExposureInput) :
    List PolicyViolation :=
  if exposures.isEmpty then []
  else
    let total := _calc_total_exposure exposures
    if total ≤ 0 then []
    else
      let base_single := lookupD cfg.exposure_limits "single_institution" 0.25
      let base_policy := lookupD cfg.exposure_limits "policy_bank" 0.30
      exposures.flatMap (ratingCheckOne cfg total base_single base_policy)

/-- Bucket sums: `bucket = e.maturity_bucket or "UNKNOWN"` then accumulate. -/
def buildBucketSum (exposures : List BankExposureInput) : List (String × ℚ) :=
  exposures.foldl
    (fun m e => addToSumMap m (pyOrStr e.maturity_bucket "UNKNOWN") e.exposure)
    []

/-- The maturity violation record appended by `check_maturity_distribution`. -/
def maturityViolation (k dir : String) (current min_pct max_pct bound total : ℚ)
    (level : SeverityLevel) : PolicyViolation :=
  { type := .MATURITY_DISTRIBUTION, level := level, code := "MATURITY_" ++ dir,
    details := [("bucket", .ds k), ("direction", .ds dir), ("current_pct", .dq current),
      ("min_pct", .dq min_pct), ("max_pct", .dq max_pct),
      ("diff_pct", .dq |current - bound|), ("diff_amount", .dq (|current - bound| * total)),
      ("total_exposure", .dq total)] }

/-- Severity of the over branch: `_severity_from_ratio` on
`current/max_pct` (0 when `max_pct` is not positive). -/
def maturityOverLevel (cfg : PolicyConfig) (bc : BucketCfg) (current : ℚ) : SeverityLevel :=
  _severity_from_ratio cfg (if bc.max_pct > 0 then current / bc.max_pct else 0)

/-- The first grading step of the under branch: WARNING when the shortfall
ratio `(min_pct - current)/min_pct` reaches `1 - warning_threshold`. -/
def maturityUnderLvl1 (cfg : PolicyConfig) (bc : BucketCfg) (current : ℚ) : SeverityLevel :=
  if (if bc.min_pct > 0 then (bc.min_pct - current) / bc.min_pct else 0) ≥
      1 - cfg.warning_threshold then .WARNING
  else .OK

/-- The final grade of the under branch: when the shortfall ratio reaches
`1 - critical_threshold`, escalate to CRITICAL if
`current < min_pct * warning_threshold`. -/
def maturityUnderLevel (cfg : PolicyConfig) (bc : BucketCfg) (current : ℚ) : SeverityLevel :=
  if (if bc.min_pct > 0 then (bc.min_pct - current) / bc.min_pct else 0) ≥
      1 - cfg.critical_threshold then
    (if current < bc.min_pct * cfg.warning_threshold then .CRITICAL
     else maturityUnderLvl1 cfg bc current)
  else maturityUnderLvl1 cfg bc current

/-- The per-bucket body of the loop in `check_maturity_distribution`, as a
function of the bucket's current share. -/
def maturityBucketCheckCur (cfg : PolicyConfig) (k : String) (bc : BucketCfg)
    (total current : ℚ) : List PolicyViolation :=
  if current > bc.max_pct then
    if maturityOverLevel cfg bc current = .OK then []
    else [maturityViolation k "OVER" current bc.min_pct bc.max_pct bc.max_pct total
      (maturityOverLevel cfg bc current)]
  else if current < bc.min_pct then
    if maturityUnderLevel cfg bc current = .OK then []
    else [maturityViolation k "UNDER" current bc.min_pct bc.max_pct bc.min_pct total
      (maturityUnderLevel cfg bc current)]
  else []

/-- The per-bucket body with `current = bucket_sum[k]/total`. -/
def maturityBucketCheck (cfg : PolicyConfig) (total : ℚ) (bucket_sum : List (String × ℚ))
    (k : String) (bc : BucketCfg) : List PolicyViolation :=
  maturityBucketCheckCur cfg k bc total (lookupD bucket_sum k 0 / total)

/-- `PolicyEngine.check_maturity_distribution`. -/
def check_maturity_distribution (cfg : PolicyConfig) (exposures : List BankExposureInput) :
    List PolicyViolation :=
  if exposures.isEmpty then []
  else if _calc_total_exposure exposures ≤ 0 then []
  else
    cfg.maturity_buckets.flatMap fun p =>
      maturityBucketCheck cfg (_calc_total_exposure exposures) (buildBucketSum exposures)
        p.1 p.2

/-- Numeric order of severities. -/
def levelOrder : SeverityLevel → Nat
  | .OK => 0
  | .WARNING => 1
  | .CRITICAL => 2

/-- Display name of a violation type. -/
def typeName : ViolationType → String
  | .EXPOSURE_LIMIT => "EXPOSURE_LIMIT"
  | .CREDIT_RATING_LIMIT => "CREDIT_RATING_LIMIT"
  | .MATURITY_DISTRIBUTION => "MATURITY_DISTRIBUTION"

/-- Display name of a severity. -/
def levelName : SeverityLevel → String
  | .OK => "OK"
  | .WARNING => "WARNING"
  | .CRITICAL => "CRITICAL"

/-- Count accumulation mirroring `summary.setdefault(k, 0); summary[k] += 1`. -/
def addCount (m : List (String × Nat)) (k : String) : List (String × Nat) :=
  if m.any (fun p => p.1 == k) then
    m.map (fun p => if p.1 == k then (p.1, p.2 + 1) else p)
  else m ++ [(k, 1)]

/-- The aggregate report (`PolicyEvaluationResult` with its summary). -/
structure PolicyEvaluationResult where
  violations : List PolicyViolation
  highest_level : SeverityLevel
  total_violations : Nat
  by_type : List (String × Nat)
  by_level : List (String × Nat)
deriving DecidableEq, Repr

/-- `PolicyEngine.generate_violations_report`. -/
def generate_violations_report (cfg : PolicyConfig) (exposures : List BankExposureInput) :
    PolicyEvaluationResult :=
  let all := check_exposure_limits cfg exposures ++
    check_credit_rating_limits cfg exposures ++ check_maturity_distribution cfg exposures
  { violations := all
    highest_level :=
      all.foldl (fun h v => if levelOrder v.level > levelOrder h then v.level else h) .OK
    total_violations := all.length
    by_type := all.foldl (fun m v => addCount m (typeName v.type)) []
    by_level := all.foldl (fun m v => addCount m (levelName v.level)) [] }

/-! ## MCP policy tools (bank_monitering/app_mcp/tools/policy_check.py) -/

/-- Maturity label normalization (`_normalize_maturity_bucket`). Python
strips surrounding whitespace and uppercases; `pyStrip` and the ASCII
uppercasing agree on the embedded labels. -/
def _normalize_maturity_bucket (raw : Option String) : String :=
  match raw with
  | none => "UNKNOWN"
  | some r =>
      let bucket := upperStr (pyStrip r)
      if bucket = "ON" ∨ bucket = "O/N" ∨ bucket = "CALL" ∨ bucket = "OVERNIGHT" then
        "OVERNIGHT"
      else if bucket = "7D" ∨ bucket = "7_DAY" ∨ bucket = "WITHIN_7D" then "WITHIN_7D"
      else if bucket = "1M" ∨ bucket = "1_MONTH" ∨ bucket = "WITHIN_1M" then "WITHIN_1M"
      else if bucket = "3M" ∨ bucket = "3_MONTH" ∨ bucket = "WITHIN_3M" then "WITHIN_3M"
      else "UNKNOWN"

/-- Institution-type detection from id/name substrings
(`_detect_institution_type`). -/
def _detect_institution_type (bank_id name : String) : String :=
  let key := lowerStr (if bank_id = "" then name else bank_id)
  if strContains key "nh투자" ∨ strContains key "증권" ∨ strContains key "미래에셋" ∨
      strContains key "키움" ∨ strContains key "대신증권" then "broker"
  else if pyStartsWith key "nh" ∧ ¬ strContains key "은행" then "broker"
  else if strContains key "신한" ∨ strContains key "shinhan" then "commercial_bank"
  else if strContains key "국민" ∨ strContains key "kb" ∨ strContains key "kbstar" then
    "commercial_bank"
  else if strContains key "우리은행" ∨ strContains key "woori" then "commercial_bank"
  else if strContains key "하나은행" ∨ strContains key "hana" then "commercial_bank"
  else if strContains key "kdb" ∨ strContains key "산업은행" then "policy_bank"
  else if strContains key "ibk" ∨ strContains key "기업은행" then "policy_bank"
  else if strContains key "ksd" ∨ strContains key "예탁" then "custody_agent"
  else "other"

/-- `AUTO_MATURITY_DISTRIBUTION`: the fixed auto-split weights. -/
def AUTO_MATURITY_DISTRIBUTION : List (String × ℚ) :=
  [("OVERNIGHT", 0.80), ("WITHIN_7D", 0.10), ("WITHIN_1M", 0.07), ("WITHIN_3M", 0.03)]

/-- `_split_auto_maturity`: one row per bucket, exposure scaled by the weight. -/
def _split_auto_maturity (bank_id name : String) (group_id : Option String)
    (inst_type : String) (is_policy : Bool) (balance : ℚ)
    (credit_rating : Option String) : List BankExposureInput :=
  AUTO_MATURITY_DISTRIBUTION.map fun p =>
    { bank_id := bank_id, name := name, group_id := group_id, is_policy_bank := is_policy,
      exposure := balance * p.2, credit_rating := credit_rating,
      maturity_bucket := some p.1, type := inst_type }

/-- One raw item of the `exposures` payload list, restricted to the keys
the parser reads. -/
structure ExposureItem where
  bank_id : Option String
  id : Option String
  name : Option String
  bank_name : Option String
  group_id : Option String
  exposure : Option ℚ
  balance : Option ℚ
  credit_rating : Option String
  maturity_bucket : Option String
  is_policy_bank : Option Bool
deriving DecidableEq, Repr

/-- Python `a or b` on optional rationals: `None` and `0` are falsy. -/
def pyOrQ (a : Option ℚ) (b : ℚ) : ℚ :=
  match a with
  | some q => if q = 0 then b else q
  | none => b

/-- Python `bool(a or b)` on an optional boolean and a boolean. -/
def pyOrB (a : Option Bool) (b : Bool) : Bool :=
  match a with
  | some true => true
  | _ => b

/-- The loop body of `_parse_exposures_payload` over the `exposures` list
(the `banks` branch of the source mirrors the same body for the UI payload
shape). Rows with an unknown or OVERNIGHT maturity bucket are auto-split. -/
def parseExposureItem (x : ExposureItem) : List BankExposureInput :=
  let bank_id := pyOrStr x.bank_id (pyOrStr x.id "")
  let name := pyOrStr x.name (pyOrStr x.bank_name bank_id)
  let balance := pyOrQ x.exposure (pyOrQ x.balance 0)
  let inst_type := _detect_institution_type bank_id name
  let maturity_bucket := _normalize_maturity_bucket x.maturity_bucket
  let is_policy := pyOrB x.is_policy_bank (inst_type == "policy_bank")
  if maturity_bucket = "UNKNOWN" ∨ maturity_bucket = "OVERNIGHT" then
    _split_auto_maturity bank_id name x.group_id inst_type is_policy balance x.credit_rating
  else
    [{ bank_id := bank_id, name := name, group_id := x.group_id,
       is_policy_bank := is_policy, exposure := balance,
       credit_rating := x.credit_rating, maturity_bucket := some maturity_bucket,
       type := inst_type }]

/-- `_parse_exposures_payload` on a payload whose `exposures` key holds a
list of items. -/
def _parse_exposures_payload (items : List ExposureItem) : List BankExposureInput :=
  items.flatMap parseExposureItem

/-- The `check_policy_compliance` tool: parse, drop custody agents, report. -/
def check_policy_compliance (items : List ExposureItem) : PolicyEvaluationResult :=
  let exp_list := (_parse_exposures_payload items).filter (fun b => b.type ≠ "custody_agent")
  generate_violations_report defaultPolicyConfig exp_list

/-- One rebalancing suggestion; fields not set by the producing branch are
`none`. -/
structure Suggestion where
  category : String
  target : Option String
  excess_amount : Option ℚ
  bucket : Option String
  direction : Option String
deriving DecidableEq, Repr

/-- The `get_rebalancing_suggestions` tool: CRITICAL exposure/rating
violations become `EXPOSURE_REDUCTION` actions; maturity violations of any
level become `MATURITY_ADJUSTMENT` actions. -/
def get_rebalancing_suggestions (violations : List PolicyViolation) : List Suggestion :=
  violations.flatMap fun v =>
    if (v.type = .EXPOSURE_LIMIT ∨ v.type = .CREDIT_RATING_LIMIT) ∧ v.level = .CRITICAL then
      [{ category := "EXPOSURE_REDUCTION", target := getDetailS v.details "bank_name",
         excess_amount := getDetailQ v.details "excess_amount",
         bucket := none, direction := none }]
    else if v.type = .MATURITY_DISTRIBUTION then
      [{ category := "MATURITY_ADJUSTMENT", target := none, excess_amount := none,
         bucket := getDetailS v.details "bucket",
         direction := getDetailS v.details "direction" }]
    else []

/-- An exposures-payload item carrying only a bank id and an amount. -/
def plainItem (bid : String) (amount : ℚ) : ExposureItem :=
  ⟨some bid, none, none, none, none, some amount, none, none, none, none⟩

/-- The §8 scenario-3 payload: exposures A 600, B 200, C 200. -/
def c3Items : List ExposureItem :=
  [plainItem "A" 600, plainItem "B" 200, plainItem "C" 200]

/-- The single-institution loop body records `current_pct = exposure/total`
and checks it against the 0.25 single (0.30 policy-bank) limit with the
default 90%/100% thresholds: a violation is emitted exactly when
`share/limit` reaches the warning threshold. -/
theorem singleCheckOne_spec (total : ℚ) (e : BankExposureInput) :
    (singleCheckOne defaultPolicyConfig total 0.25 0.30 e).map
        (fun v => (getDetailQ v.details "current_pct", getDetailQ v.details "limit_pct")) =
      if (9/10 : ℚ) ≤ e.exposure / total / (if e.is_policy_bank then (3/10 : ℚ) else 1/4)
      then [(some (e.exposure / total), some (if e.is_policy_bank then (3/10 : ℚ) else 1/4))]
      else [] := by
  unfold singleCheckOne _severity_from_ratio defaultPolicyConfig
  by_cases hp : e.is_policy_bank <;>
    simp only [hp, if_true, if_false, Bool.false_eq_true, ite_true, ite_false] <;>
    norm_num <;>
    split_ifs with h1 h2 <;>
    simp_all [getDetailQ] <;>
    linarith

/-- C3 counterexample: on the exposures A 600 / B 200 / C 200 the tool's
auto-split normalization fires (no maturity buckets are supplied), so the
unique SINGLE_LIMIT violation carries `current_pct = 12/25 = 0.48` and
`excess_amount = 230` — not 0.60 and 350 — and no EXPOSURE_REDUCTION
suggestion for A carries 350; nor is the A-targeting suggestion unique. -/
theorem C3_scenario_numbers_refuted :
    (((check_policy_compliance c3Items).violations.filter
        (fun v => v.code = "SINGLE_LIMIT")).map
        (fun v => (getDetailQ v.details "current_pct", getDetailQ v.details "excess_amount"))) =
      [(some (12/25 : ℚ), some 230)] ∧
    ((check_policy_compliance c3Items).violations.filter
        (fun v => v.code = "SINGLE_LIMIT" ∧
          getDetailQ v.details "current_pct" = some (3/5 : ℚ))) = [] ∧
    ((get_rebalancing_suggestions (check_policy_compliance c3Items).violations).filter
        (fun s => s.category = "EXPOSURE_REDUCTION" ∧ s.target = some "A" ∧
          s.excess_amount = some 350)) = [] ∧
    ((get_rebalancing_suggestions (check_policy_compliance c3Items).violations).filter
        (fun s => s.category = "EXPOSURE_REDUCTION" ∧ s.target = some "A")).length = 2 := by
  decide

/-- C3 amended: with the §4.6 auto-split normalization applied (the rows
carry no maturity buckets), `check_policy_compliance` on A 600 / B 200 /
C 200 returns a CRITICAL SINGLE_LIMIT violation for A carried by A's
OVERNIGHT split row with `current_pct = 0.48` and `excess_amount = 230`;
`get_rebalancing_suggestions` yields exactly two EXPOSURE_REDUCTION actions
targeting A, for 230 (single limit) and 355 (rating-adjusted limit); and
per split row the single-institution rule records `share = exposure/total`
checked against the 0.25 single (0.30 policy-bank) limit. -/
theorem C3_single_breach_with_auto_split :
    ((((check_policy_compliance c3Items).violations.filter
        (fun v => v.code = "SINGLE_LIMIT")).map
        (fun v => (getDetailS v.details "bank_id", v.level,
          getDetailQ v.details "current_pct", getDetailQ v.details "excess_amount"))) =
      [(some "A", .CRITICAL, some (12/25 : ℚ), some 230)] ∧
    ((get_rebalancing_suggestions (check_policy_compliance c3Items).violations).filter
        (fun s => s.category = "EXPOSURE_REDUCTION" ∧ s.target = some "A")).map
        (·.excess_amount) = [some 230, some 355] ∧
    (check_policy_compliance c3Items).highest_level = .CRITICAL) ∧
    ∀ (total : ℚ) (e : BankExposureInput),
      (singleCheckOne defaultPolicyConfig total 0.25 0.30 e).map
          (fun v => (getDetailQ v.details "current_pct", getDetailQ v.details "limit_pct")) =
        if (9/10 : ℚ) ≤ e.exposure / total / (if e.is_policy_bank then (3/10 : ℚ) else 1/4)
        then [(some (e.exposure / total), some (if e.is_policy_bank then (3/10 : ℚ) else 1/4))]
        else [] := by
  exact ⟨by decide, singleCheckOne_spec⟩

/-- Every violation emitted for a bucket records that bucket in its
details together with an `OVER`/`UNDER` direction matching its code. -/
theorem mem_maturityBucketCheckCur (cfg : PolicyConfig) (k : String) (bc : BucketCfg)
    (total current : ℚ) (v : PolicyViolation)
    (hv : v ∈ maturityBucketCheckCur cfg k bc total current) :
    getDetailS v.details "bucket" = some k ∧
    ∃ d, (d = "OVER" ∨ d = "UNDER") ∧ getDetailS v.details "direction" = some d ∧
      v.code = "MATURITY_" ++ d := by
  unfold maturityBucketCheckCur at hv
  split_ifs at hv
  all_goals first
    | exact absurd hv (List.not_mem_nil v)
    | (rw [List.mem_singleton] at hv; subst hv;
       first
         | exact ⟨rfl, "OVER", Or.inl rfl, rfl, rfl⟩
         | exact ⟨rfl, "UNDER", Or.inr rfl, rfl, rfl⟩)

/-- The same facts, at the `bucket_sum` level. -/
theorem mem_maturityBucketCheck (cfg : PolicyConfig) (total : ℚ) (bs : List (String × ℚ))
    (k : String) (bc : BucketCfg) (v : PolicyViolation)
    (hv : v ∈ maturityBucketCheck cfg total bs k bc) :
    getDetailS v.details "bucket" = some k ∧
    ∃ d, (d = "OVER" ∨ d = "UNDER") ∧ getDetailS v.details "direction" = some d ∧
      v.code = "MATURITY_" ++ d :=
  mem_maturityBucketCheckCur cfg k bc total _ v hv

/-- Filtering one bucket's emissions for a bucket key keeps all of them or
none, depending on whether the keys agree. -/
theorem filter_maturityBucketCheck (cfg : PolicyConfig) (total : ℚ)
    (bs : List (String × ℚ)) (j : String) (bcj : BucketCfg) (k : String) :
    (maturityBucketCheck cfg total bs j bcj).filter
        (fun v => getDetailS v.details "bucket" = some k) =
      if j = k then maturityBucketCheck cfg total bs j bcj else [] := by
  split_ifs with hjk
  · subst hjk
    refine List.filter_eq_self.mpr fun v hv => ?_
    simpa using (mem_maturityBucketCheck cfg total bs j bcj v hv).1
  · refine List.filter_eq_nil_iff.mpr fun v hv => ?_
    have h1 := (mem_maturityBucketCheck cfg total bs j bcj v hv).1
    simp [h1, hjk]

/-- For a configured bucket and positive total exposure, the violations of
`check_maturity_distribution` carrying that bucket key are exactly the
bucket's own check. -/
theorem check_maturity_filter (exps : List BankExposureInput) (k : String) (bc : BucketCfg)
    (hmem : (k, bc) ∈ MATURITY_BUCKETS) (ht : 0 < _calc_total_exposure exps) :
    (check_maturity_distribution defaultPolicyConfig exps).filter
        (fun v => getDetailS v.details "bucket" = some k) =
      maturityBucketCheck defaultPolicyConfig (_calc_total_exposure exps)
        (buildBucketSum exps) k bc := by
  have hne : ¬ exps.isEmpty := by
    intro h
    rw [List.isEmpty_iff] at h
    subst h
    simp [_calc_total_exposure] at ht
  unfold check_maturity_distribution
  rw [if_neg hne, if_neg (by linarith)]
  fin_cases hmem <;>
    simp [defaultPolicyConfig, MATURITY_BUCKETS, List.filter_append,
      filter_maturityBucketCheck]

/-- The under-branch grade with the default thresholds: CRITICAL strictly
below `min_pct * 0.9`, WARNING exactly at `min_pct * 0.9`, OK above. -/
theorem maturityUnderLevel_default_eq (min_pct max_pct cur : ℚ) (h0 : 0 < min_pct) :
    maturityUnderLevel defaultPolicyConfig ⟨min_pct, max_pct⟩ cur =
      if cur < min_pct * (9/10) then .CRITICAL
      else if cur = min_pct * (9/10) then .WARNING
      else .OK := by
  unfold maturityUnderLevel maturityUnderLvl1 defaultPolicyConfig
  have hmp : (if min_pct > 0 then (min_pct - cur) / min_pct else 0) =
      (min_pct - cur) / min_pct := if_pos h0
  have e1 : (1 : ℚ) - 0.90 = 1/10 := by norm_num
  have e2 : (1 : ℚ) - 1.00 = 0 := by norm_num
  have e3 : min_pct * (0.90 : ℚ) = min_pct * (9/10) := by norm_num
  simp only [hmp, e1, e2, e3, ge_iff_le]
  rcases lt_trichotomy cur (min_pct * (9/10)) with hlt | heq | hgt
  · have hA : (0 : ℚ) ≤ (min_pct - cur) / min_pct :=
      div_nonneg (by nlinarith) (le_of_lt h0)
    simp only [if_pos hA, if_pos hlt]
  · subst heq
    have hA : (0 : ℚ) ≤ (min_pct - min_pct * (9/10)) / min_pct :=
      div_nonneg (by nlinarith) (le_of_lt h0)
    have hB : ¬ (min_pct * (9/10) < min_pct * (9/10)) := lt_irrefl _
    have hC : (1/10 : ℚ) ≤ (min_pct - min_pct * (9/10)) / min_pct := by
      rw [le_div_iff₀ h0]
      nlinarith
    simp only [if_pos hA, if_neg hB, if_pos hC, if_pos rfl]
    simp
  · have hC : ¬ ((1/10 : ℚ) ≤ (min_pct - cur) / min_pct) := by
      rw [le_div_iff₀ h0]
      intro h
      nlinarith
    have hlt' : ¬ (cur < min_pct * (9/10)) := by linarith
    have hC2 : (min_pct - cur) / min_pct < 1/10 := not_le.mp hC
    by_cases hA : (0 : ℚ) ≤ (min_pct - cur) / min_pct <;>
      simp [hA, hC, hC2, hlt', ne_of_gt hgt] <;>
      linarith [hC2]

/-- The full per-bucket check on an under-allocated share (default
configuration): one CRITICAL violation below `min_pct * 0.9`, one WARNING
violation exactly at it, nothing in between. -/
theorem maturityBucketCheckCur_under (k : String) (min_pct max_pct total cur : ℚ)
    (h0 : 0 < min_pct) (hmm : min_pct ≤ max_pct) (hlt : cur < min_pct) :
    maturityBucketCheckCur defaultPolicyConfig k ⟨min_pct, max_pct⟩ total cur =
      if cur < min_pct * (9/10) then
        [maturityViolation k "UNDER" cur min_pct max_pct min_pct total .CRITICAL]
      else if cur = min_pct * (9/10) then
        [maturityViolation k "UNDER" cur min_pct max_pct min_pct total .WARNING]
      else [] := by
  have hmax : ¬ (cur > max_pct) := by linarith
  have hlev := maturityUnderLevel_default_eq min_pct max_pct cur h0
  unfold maturityBucketCheckCur
  rcases lt_trichotomy cur (min_pct * (9/10)) with h1 | h1 | h1
  · rw [hlev]
    simp_all [hmax, hlt, h1]
  · rw [hlev]
    simp_all [hmax, hlt, h1]
  · rw [hlev]
    have g3 : ¬ (cur < min_pct * (9/10)) := not_lt.mpr (le_of_lt h1)
    have g4 : ¬ (cur = min_pct * (9/10)) := ne_of_gt h1
    simp [hmax, hlt, g3, g4]

/-- An exposure row with only an amount and a maturity bucket. -/
def mkRow (bid : String) (amount : ℚ) (bucket : String) : BankExposureInput :=
  { bank_id := bid, name := bid, group_id := none, is_policy_bank := false,
    exposure := amount, credit_rating := none, maturity_bucket := some bucket,
    type := "other" }

/-- The maturity distribution OVERNIGHT 10%, 7D 30%, 1M 40%, 3M 20% of the
spec's scenario 4. -/
def c6Exposures : List BankExposureInput :=
  [mkRow "e1" 10 "OVERNIGHT", mkRow "e2" 30 "WITHIN_7D",
   mkRow "e3" 40 "WITHIN_1M", mkRow "e4" 20 "WITHIN_3M"]

/-- C6: on the distribution OVERNIGHT 0.10 / 7D 0.30 / 1M 0.40 / 3M 0.20
the maturity check grades OVERNIGHT CRITICAL with code MATURITY_UNDER and
direction UNDER (0.10 < 0.30 * 0.90); in general a configured bucket whose
share is below `min_pct * warning_threshold` yields a CRITICAL
MATURITY_UNDER violation, and every maturity violation carries its
OVER/UNDER direction in its details. -/
theorem C6_overnight_under_is_critical :
    ((((check_maturity_distribution defaultPolicyConfig c6Exposures).filter
        (fun v => getDetailS v.details "bucket" = some "OVERNIGHT")).map
        (fun v => (v.code, v.level, getDetailS v.details "direction"))) =
      [("MATURITY_UNDER", SeverityLevel.CRITICAL, some "UNDER")]) ∧
    (∀ (exps : List BankExposureInput) (k : String) (bc : BucketCfg),
      (k, bc) ∈ MATURITY_BUCKETS → 0 < _calc_total_exposure exps →
      lookupD (buildBucketSum exps) k 0 / _calc_total_exposure exps < bc.min_pct * (9/10) →
      ∃ v ∈ check_maturity_distribution defaultPolicyConfig exps,
        getDetailS v.details "bucket" = some k ∧ v.code = "MATURITY_UNDER" ∧
        v.level = .CRITICAL ∧ getDetailS v.details "direction" = some "UNDER") ∧
    (∀ (cfg : PolicyConfig) (exps : List BankExposureInput) (v : PolicyViolation),
      v ∈ check_maturity_distribution cfg exps →
      ∃ d, (d = "OVER" ∨ d = "UNDER") ∧ getDetailS v.details "direction" = some d ∧
        v.code = "MATURITY_" ++ d) := by
  refine ⟨by decide, ?_, ?_⟩
  · intro exps k bc hmem ht hcur
    obtain ⟨bmin, bmax⟩ := bc
    have h0 : 0 < bmin := by fin_cases hmem <;> norm_num
    have hmm : bmin ≤ bmax := by fin_cases hmem <;> norm_num
    have hltm : lookupD (buildBucketSum exps) k 0 / _calc_total_exposure exps < bmin := by
      nlinarith
    have hfil := check_maturity_filter exps k ⟨bmin, bmax⟩ hmem ht
    rw [maturityBucketCheck] at hfil
    rw [maturityBucketCheckCur_under k bmin bmax _ _ h0 hmm hltm, if_pos hcur] at hfil
    refine ⟨maturityViolation k "UNDER"
        (lookupD (buildBucketSum exps) k 0 / _calc_total_exposure exps)
        bmin bmax bmin (_calc_total_exposure exps) .CRITICAL, ?_, rfl, rfl, rfl, rfl⟩
    exact List.mem_of_mem_filter (hfil ▸ List.mem_singleton_self _)
  · intro cfg exps v hv
    unfold check_maturity_distribution at hv
    split_ifs at hv
    · exact absurd hv (List.not_mem_nil v)
    · exact absurd hv (List.not_mem_nil v)
    · rw [List.mem_flatMap] at hv
      obtain ⟨p, _, hv⟩ := hv
      exact (mem_maturityBucketCheck _ _ _ _ _ _ hv).2

/-- C9: with the default thresholds and a positive total, a configured
bucket whose share lies strictly between `min_pct * 0.9` and `min_pct`
produces no violation; an under-allocated bucket is graded WARNING exactly
at `share = min_pct * 0.9`; and every share strictly below `min_pct * 0.9`
is graded CRITICAL. -/
theorem C9_under_band_goes_unreported :
    ∀ (exps : List BankExposureInput) (k : String) (bc : BucketCfg),
      (k, bc) ∈ MATURITY_BUCKETS → 0 < _calc_total_exposure exps →
      ((bc.min_pct * (9/10) < lookupD (buildBucketSum exps) k 0 / _calc_total_exposure exps →
        lookupD (buildBucketSum exps) k 0 / _calc_total_exposure exps < bc.min_pct →
        (check_maturity_distribution defaultPolicyConfig exps).filter
          (fun v => getDetailS v.details "bucket" = some k) = []) ∧
       (lookupD (buildBucketSum exps) k 0 / _calc_total_exposure exps < bc.min_pct →
        ((∃ v ∈ check_maturity_distribution defaultPolicyConfig exps,
            getDetailS v.details "bucket" = some k ∧ v.level = .WARNING) ↔
          lookupD (buildBucketSum exps) k 0 / _calc_total_exposure exps =
            bc.min_pct * (9/10))) ∧
       (lookupD (buildBucketSum exps) k 0 / _calc_total_exposure exps < bc.min_pct * (9/10) →
        ∃ v ∈ check_maturity_distribution defaultPolicyConfig exps,
          getDetailS v.details "bucket" = some k ∧ v.level = .CRITICAL)) := by
  intro exps k bc hmem ht
  obtain ⟨bmin, bmax⟩ := bc
  have h0 : 0 < bmin := by fin_cases hmem <;> norm_num
  have hmm : bmin ≤ bmax := by fin_cases hmem <;> norm_num
  have hfil := check_maturity_filter exps k ⟨bmin, bmax⟩ hmem ht
  rw [maturityBucketCheck] at hfil
  refine ⟨?_, ?_, ?_⟩
  · intro hlo hhi
    rw [hfil, maturityBucketCheckCur_under k bmin bmax _ _ h0 hmm hhi,
      if_neg (not_lt.mpr (le_of_lt hlo)), if_neg (ne_of_gt hlo)]
  · intro hhi
    rw [maturityBucketCheckCur_under k bmin bmax _ _ h0 hmm hhi] at hfil
    constructor
    · rintro ⟨v, hv, hbk, hlev⟩
      have hvf : v ∈ (check_maturity_distribution defaultPolicyConfig exps).filter
          (fun w => getDetailS w.details "bucket" = some k) :=
        List.mem_filter.mpr ⟨hv, by simp [hbk]⟩
      rcases lt_trichotomy (lookupD (buildBucketSum exps) k 0 / _calc_total_exposure exps)
          (bmin * (9/10)) with h1 | h1 | h1
      · rw [hfil, if_pos h1, List.mem_singleton] at hvf
        rw [hvf] at hlev
        exact absurd hlev (by simp [maturityViolation])
      · exact h1
      · rw [hfil, if_neg (not_lt.mpr (le_of_lt h1)), if_neg (ne_of_gt h1)] at hvf
        exact absurd hvf (List.not_mem_nil v)
    · intro heq
      rw [if_neg (by rw [heq]; exact lt_irrefl _), if_pos heq] at hfil
      refine ⟨maturityViolation k "UNDER"
          (lookupD (buildBucketSum exps) k 0 / _calc_total_exposure exps)
          bmin bmax bmin (_calc_total_exposure exps) .WARNING, ?_, rfl, rfl⟩
      exact List.mem_of_mem_filter (hfil ▸ List.mem_singleton_self _)
  · intro hcr
    have hhi : lookupD (buildBucketSum exps) k 0 / _calc_total_exposure exps < bmin := by
      nlinarith
    rw [maturityBucketCheckCur_under k bmin bmax _ _ h0 hmm hhi, if_pos hcr] at hfil
    refine ⟨maturityViolation k "UNDER"
        (lookupD (buildBucketSum exps) k 0 / _calc_total_exposure exps)
        bmin bmax bmin (_calc_total_exposure exps) .CRITICAL, ?_, rfl, rfl⟩
    exact List.mem_of_mem_filter (hfil ▸ List.mem_singleton_self _)

/-- A distribution whose OVERNIGHT share 0.28 lies strictly inside the
unreported band (0.27, 0.30). -/
def c9Exposures : List BankExposureInput :=
  [mkRow "e1" 28 "OVERNIGHT", mkRow "e2" 30 "WITHIN_7D",
   mkRow "e3" 30 "WITHIN_1M", mkRow "e4" 12 "WITHIN_3M"]

/-- C9 instantiated: the OVERNIGHT shortfall at share 0.28 goes
unreported. -/
theorem C9_witness_band :
    (check_maturity_distribution defaultPolicyConfig c9Exposures).filter
      (fun v => getDetailS v.details "bucket" = some "OVERNIGHT") = [] :=
  ((C9_under_band_goes_unreported c9Exposures "OVERNIGHT" ⟨0.30, 0.40⟩
      (by decide) (by decide)).1) (by decide) (by decide)

/-- C6 instantiated at the scenario distribution. -/
theorem C6_witness :
    ∃ v ∈ check_maturity_distribution defaultPolicyConfig c6Exposures,
      getDetailS v.details "bucket" = some "OVERNIGHT" ∧ v.code = "MATURITY_UNDER" ∧
      v.level = .CRITICAL ∧ getDetailS v.details "direction" = some "UNDER" :=
  C6_overnight_under_is_critical.2.1 c6Exposures "OVERNIGHT" ⟨0.30, 0.40⟩
    (by decide) (by decide) (by decide)

/-! ## Bank risk engine stress test (bank_monitering/core/bank_risk.py,
`BankRiskEngine.run_stress`)

The source loops once over the exposures, accumulating
`unavailable_amount`, `liquid_assets` and `detail_by_bank`; the loop is
rendered functionally as one sum per accumulator over the same list. -/

/-- Maturity buckets of the risk engine (`MaturityBucket`). -/
inductive MaturityBucket where
  | OVERNIGHT
  | D_7
  | M_1
  | M_3
  | LONGER
deriving DecidableEq, Repr

/-- One exposure row, restricted to the fields `run_stress` reads
(`bank_id`, `exposure`, `maturity_bucket`); the remaining `BankExposure`
columns (name, group, region, rating, optional market data) do not enter
the computation. -/
structure BankExposure where
  bank_id : String
  exposure : ℚ
  maturity_bucket : MaturityBucket
deriving DecidableEq, Repr

/-- A stress scenario (`StressScenarioConfig`). -/
structure StressScenarioConfig where
  bank_liquidity_shock : List (String × ℚ)
  daily_runoff_rate : ℚ
  interest_rate_shock_bps : ℚ
deriving DecidableEq, Repr

/-- The stress output (`StressResult`). -/
structure StressResult where
  total_exposure : ℚ
  unavailable_amount : ℚ
  run_off_amount : ℚ
  net_liquid_assets : ℚ
  coverage_ratio : ℚ
  detail_by_bank : List (String × (ℚ × ℚ))
deriving DecidableEq, Repr

/-- Dictionary assignment `d[k] = v` (overwrite or append). -/
def setItem (m : List (String × (ℚ × ℚ))) (k : String) (v : ℚ × ℚ) :
    List (String × (ℚ × ℚ)) :=
  if m.any (fun p => p.1 == k) then m.map (fun p => if p.1 == k then (k, v) else p)
  else m ++ [(k, v)]

/-- The shock fraction of one bank:
`scenario.bank_liquidity_shock.get(e.bank_id, 0.0)`. -/
def bankShock (scenario : StressScenarioConfig) (e : BankExposure) : ℚ :=
  lookupD scenario.bank_liquidity_shock e.bank_id 0

/-- The `unavailable_amount` accumulation: `Σ exposure · shock`. -/
def unavailableSum (exposures : List BankExposure) (scenario : StressScenarioConfig) : ℚ :=
  (exposures.map fun e => e.exposure * bankShock scenario e).sum

/-- The `liquid_assets` accumulation:
`max(exposure − exposure·shock, 0)` over rows in the liquid buckets
(default `OVERNIGHT`, `D_7`). -/
def liquidAssetsSum (exposures : List BankExposure) (scenario : StressScenarioConfig) : ℚ :=
  (exposures.map fun e =>
    if e.maturity_bucket = .OVERNIGHT ∨ e.maturity_bucket = .D_7 then
      max (e.exposure - e.exposure * bankShock scenario e) 0
    else 0).sum

/-- The `detail_by_bank` accumulation. -/
def detailByBank (exposures : List BankExposure) (scenario : StressScenarioConfig) :
    List (String × (ℚ × ℚ)) :=
  exposures.foldl
    (fun m e => setItem m e.bank_id (e.exposure, e.exposure * bankShock scenario e)) []

/-- `BankRiskEngine.run_stress` with the default liquid buckets. -/
def run_stress (exposures : List BankExposure) (scenario : StressScenarioConfig) :
    StressResult :=
  { total_exposure := (exposures.map (·.exposure)).sum
    unavailable_amount := unavailableSum exposures scenario
    run_off_amount := (exposures.map (·.exposure)).sum * scenario.daily_runoff_rate
    net_liquid_assets :=
      max (liquidAssetsSum exposures scenario -
        (exposures.map (·.exposure)).sum * scenario.daily_runoff_rate) 0
    coverage_ratio :=
      if unavailableSum exposures scenario +
          (exposures.map (·.exposure)).sum * scenario.daily_runoff_rate > 0 then
        liquidAssetsSum exposures scenario /
          (unavailableSum exposures scenario +
            (exposures.map (·.exposure)).sum * scenario.daily_runoff_rate)
      else 1
    detail_by_bank := detailByBank exposures scenario }

/-- C8 counterexample: with shock fractions in [0,1] but a negative
exposure (first input) or a negative daily run-off rate (second input) the
claimed formulas fail: the code clamps per-bank liquid assets at zero and
returns coverage 1.0 whenever the denominator is not positive, while the
claim's formulas give 2 and −2 respectively. -/
theorem C8_coverage_formula_refuted :
    (run_stress [⟨"a", -100, .OVERNIGHT⟩] ⟨[], 1/2, 0⟩).coverage_ratio = 1 ∧
    ((1 - 0) * (-100 : ℚ)) / ((-100) * 0 + (-100) * (1/2)) = 2 ∧
    (run_stress [⟨"a", 100, .OVERNIGHT⟩] ⟨[], -1/2, 0⟩).coverage_ratio = 1 ∧
    ((1 - 0) * (100 : ℚ)) / (100 * 0 + 100 * (-1/2)) = -2 := by
  decide

/-- C8 amended: for nonnegative exposures, shock fractions in [0,1] and a
nonnegative daily run-off rate, `run_stress` returns
`unavailable_amount = Σ exposure·shock`,
`run_off_amount = total · daily_runoff_rate`,
`liquid_assets = Σ (1 − shock)·exposure` over the OVERNIGHT/7-day rows, and
`coverage_ratio = liquid/(unavailable + runoff)`, or 1 when that
denominator is zero. -/
theorem C8_run_stress_amended (exposures : List BankExposure)
    (scenario : StressScenarioConfig)
    (hexp : ∀ e ∈ exposures, 0 ≤ e.exposure)
    (hshock : ∀ e ∈ exposures, 0 ≤ bankShock scenario e ∧ bankShock scenario e ≤ 1)
    (hrate : 0 ≤ scenario.daily_runoff_rate) :
    (run_stress exposures scenario).unavailable_amount =
      (exposures.map fun e => e.exposure * bankShock scenario e).sum ∧
    (run_stress exposures scenario).run_off_amount =
      (exposures.map (·.exposure)).sum * scenario.daily_runoff_rate ∧
    liquidAssetsSum exposures scenario =
      (exposures.map fun e =>
        if e.maturity_bucket = .OVERNIGHT ∨ e.maturity_bucket = .D_7 then
          (1 - bankShock scenario e) * e.exposure
        else 0).sum ∧
    (run_stress exposures scenario).coverage_ratio =
      if unavailableSum exposures scenario +
          (exposures.map (·.exposure)).sum * scenario.daily_runoff_rate = 0 then 1
      else liquidAssetsSum exposures scenario /
        (unavailableSum exposures scenario +
          (exposures.map (·.exposure)).sum * scenario.daily_runoff_rate) := by
  have hliq : liquidAssetsSum exposures scenario =
      (exposures.map fun e =>
        if e.maturity_bucket = .OVERNIGHT ∨ e.maturity_bucket = .D_7 then
          (1 - bankShock scenario e) * e.exposure
        else 0).sum := by
    unfold liquidAssetsSum
    refine congrArg List.sum (List.map_congr_left fun e he => ?_)
    obtain ⟨hs0, hs1⟩ := hshock e he
    have he0 := hexp e he
    have hnn : 0 ≤ e.exposure - e.exposure * bankShock scenario e := by nlinarith
    split_ifs
    · rw [max_eq_left hnn]
      ring
    · rfl
  refine ⟨rfl, rfl, hliq, ?_⟩
  have hden : 0 ≤ unavailableSum exposures scenario +
      (exposures.map (·.exposure)).sum * scenario.daily_runoff_rate := by
    have h1 : 0 ≤ unavailableSum exposures scenario := by
      refine List.sum_nonneg fun x hx => ?_
      rw [List.mem_map] at hx
      obtain ⟨e, he, rfl⟩ := hx
      exact mul_nonneg (hexp e he) (hshock e he).1
    have h2 : 0 ≤ (exposures.map (·.exposure)).sum := by
      refine List.sum_nonneg fun x hx => ?_
      rw [List.mem_map] at hx
      obtain ⟨e, he, rfl⟩ := hx
      exact hexp e he
    exact add_nonneg h1 (mul_nonneg h2 hrate)
  unfold run_stress
  rcases lt_or_eq_of_le hden with hpos | hzero
  · rw [if_pos hpos, if_neg (ne_of_gt hpos)]
  · rw [if_neg (by linarith), if_pos hzero.symm]

/-- C8 amended claim instantiated at a concrete portfolio and scenario. -/
theorem C8_run_stress_witness :
    (run_stress [⟨"a", 100, .OVERNIGHT⟩, ⟨"b", 50, .M_1⟩]
        ⟨[("a", 1/10)], 1/10, 0⟩).coverage_ratio =
      if unavailableSum [⟨"a", 100, .OVERNIGHT⟩, ⟨"b", 50, .M_1⟩] ⟨[("a", 1/10)], 1/10, 0⟩ +
          (([⟨"a", 100, .OVERNIGHT⟩, ⟨"b", 50, .M_1⟩] :
            List BankExposure).map (·.exposure)).sum * (1/10 : ℚ) = 0 then 1
      else liquidAssetsSum [⟨"a", 100, .OVERNIGHT⟩, ⟨"b", 50, .M_1⟩] ⟨[("a", 1/10)], 1/10, 0⟩ /
        (unavailableSum [⟨"a", 100, .OVERNIGHT⟩, ⟨"b", 50, .M_1⟩] ⟨[("a", 1/10)], 1/10, 0⟩ +
          (([⟨"a", 100, .OVERNIGHT⟩, ⟨"b", 50, .M_1⟩] :
            List BankExposure).map (·.exposure)).sum * (1/10 : ℚ)) :=
  (C8_run_stress_amended [⟨"a", 100, .OVERNIGHT⟩, ⟨"b", 50, .M_1⟩] ⟨[("a", 1/10)], 1/10, 0⟩
    (by decide) (by decide) (by norm_num)).2.2.2

/-! ## Batch anchoring (tx_audit/apps/api/merkle.py, `anchor_batch`)

The relational rows are explicit lists; SQLAlchemy's `first()` is
`List.find?` and an in-place update of the found row is `updateFirst`.
Timestamps are abstract `Nat` instants (a `datetime` is always truthy). -/

/-- A `merkle_batches` row, restricted to the columns `anchor_batch`
touches. -/
structure MerkleBatchRow where
  batch_id : String
  merkle_root : String
  leaf_count : Nat
  anchored_tx : Option String
deriving DecidableEq, Repr

/-- An `anchor_records` row (the nullable `block_number` column is never
read or written by `anchor_batch` and is omitted). -/
structure AnchorRecordRow where
  batch_id : String
  chain : String
  tx_hash : Option String
  status : String
  anchored_at : Option Nat
deriving DecidableEq, Repr

/-- The slice of the store `anchor_batch` works on. -/
structure AuditStore where
  batches : List MerkleBatchRow
  anchors : List AnchorRecordRow
deriving DecidableEq, Repr

/-- The settings read by the anchorer: the default chain name and the
transaction-id prelude (settings.ANCHOR_CHAIN / settings.ANCHOR_TX_PREFIX,
defaults "mock" and "mock-"). -/
structure AnchorSettings where
  anchorChain : String
  anchorTxPfx : String
deriving DecidableEq, Repr

/-- Update the first element satisfying `p` (object identity: the query
returns the row and attribute assignment mutates it in place). -/
def updateFirst (p : α → Bool) (f : α → α) : List α → List α
  | [] => []
  | x :: xs => if p x then f x :: xs else x :: updateFirst p f xs

/-- Python falsiness of an optional string column. -/
def pyFalsyO (o : Option String) : Bool :=
  match o with
  | none => true
  | some s => s = ""

/-- `sess.query(MerkleBatch).filter(batch_id == ...).first()`. -/
def findBatch (st : AuditStore) (batch_id : String) : Option MerkleBatchRow :=
  st.batches.find? (fun mb => mb.batch_id == batch_id)

/-- `sess.query(AnchorRecord).filter(batch_id, chain).first()`. -/
def findAnchor (st : AuditStore) (batch_id chain_name : String) : Option AnchorRecordRow :=
  st.anchors.find? (fun ar => ar.batch_id == batch_id && ar.chain == chain_name)

/-- The summary dictionary `anchor_batch` returns. -/
structure AnchorResult where
  batch_id : String
  chain : String
  status : String
  tx_hash : Option String
  anchored_at : Option Nat
  merkle_root : String
  leaf_count : Nat
deriving DecidableEq, Repr

/-- `anchor_batch(batch_id, chain)`: no-op on an unknown batch; otherwise
create or refresh the anchor record (`anchored_at` only when absent), and
backfill the batch's `anchored_tx` when falsy. -/
def anchor_batch (st : AuditStore) (batch_id : String) (chain : Option String)
    (settings : AnchorSettings) (now : Nat) : AuditStore × Option AnchorResult :=
  match findBatch st batch_id with
  | none => (st, none)
  | some mb =>
    let chain_name := pyOrStr chain settings.anchorChain
    let tx_hash := pyOrStr mb.anchored_tx (settings.anchorTxPfx ++ batch_id)
    let upd_batches :=
      if pyFalsyO mb.anchored_tx then
        updateFirst (fun b => b.batch_id == batch_id)
          (fun b => { b with anchored_tx := some tx_hash }) st.batches
      else st.batches
    match findAnchor st batch_id chain_name with
    | none =>
        (⟨upd_batches,
          st.anchors ++ [⟨batch_id, chain_name, some tx_hash, "anchored", some now⟩]⟩,
         some ⟨batch_id, chain_name, "anchored", some tx_hash, some now,
           mb.merkle_root, mb.leaf_count⟩)
    | some ar =>
        let ar2 : AnchorRecordRow :=
          { ar with
            chain := chain_name
            status := "anchored"
            tx_hash := some (pyOrStr ar.tx_hash tx_hash)
            anchored_at := (match ar.anchored_at with
              | some t => some t
              | none => some now) }
        (⟨upd_batches,
          updateFirst (fun a => a.batch_id == batch_id && a.chain == chain_name)
            (fun _ => ar2) st.anchors⟩,
         some ⟨batch_id, chain_name, ar2.status, ar2.tx_hash, ar2.anchored_at,
           mb.merkle_root, mb.leaf_count⟩)

/-- Updating the found row keeps it the row the query returns, provided
the update preserves the predicate. -/
theorem find?_updateFirst_some (p : α → Bool) (f : α → α) (l : List α) (a : α)
    (hfind : l.find? p = some a) (hpa : p (f a) = true) :
    (updateFirst p f l).find? p = some (f a) := by
  induction l with
  | nil => simp at hfind
  | cons x xs ih =>
      by_cases hx : p x
      · rw [List.find?_cons_of_pos _ hx] at hfind
        obtain rfl := Option.some.inj hfind
        rw [updateFirst, if_pos hx, List.find?_cons_of_pos _ hpa]
      · rw [List.find?_cons_of_neg _ hx] at hfind
        rw [updateFirst, if_neg hx, List.find?_cons_of_neg _ hx]
        exact ih hfind

/-- An update that does not change the found row does not change the
table. -/
theorem updateFirst_found_self (p : α → Bool) (f : α → α) (l : List α) (a : α)
    (hfind : l.find? p = some a) (hfa : f a = a) : updateFirst p f l = l := by
  induction l with
  | nil => rfl
  | cons x xs ih =>
      by_cases hx : p x
      · rw [List.find?_cons_of_pos _ hx] at hfind
        obtain rfl := Option.some.inj hfind
        rw [updateFirst, if_pos hx, hfa]
      · rw [List.find?_cons_of_neg _ hx] at hfind
        rw [updateFirst, if_neg hx, ih hfind]

/-- A query that misses the first table continues in the second. -/
theorem find?_append_right (p : α → Bool) (l1 l2 : List α)
    (h1 : l1.find? p = none) : (l1 ++ l2).find? p = l2.find? p := by
  induction l1 with
  | nil => rfl
  | cons x xs ih =>
      rw [List.find?_cons] at h1
      rw [List.cons_append, List.find?_cons]
      cases hx : p x with
      | true => simp [hx] at h1
      | false =>
          simp only [hx] at h1 ⊢
          exact ih h1

/-- Python `(a or d) or d` is `a or d`. -/
theorem pyOrStr_some_absorb (o : Option String) (d : String) :
    pyOrStr (some (pyOrStr o d)) d = pyOrStr o d := by
  cases o with
  | none => by_cases hd : d = "" <;> simp [pyOrStr, hd]
  | some s =>
      by_cases hs : s = "" <;> by_cases hd : d = "" <;> simp [pyOrStr, hs, hd]


/-- The transaction id the call would use:
`mb.anchored_tx or (tx_prelude + batch_id)`. -/
def txOf (s : AnchorSettings) (b : String) (mb : MerkleBatchRow) : String :=
  pyOrStr mb.anchored_tx (s.anchorTxPfx ++ b)

/-- The batches table after one call: `anchored_tx` backfilled when falsy. -/
def batchesAfter (st : AuditStore) (b : String) (mb : MerkleBatchRow)
    (s : AnchorSettings) : List MerkleBatchRow :=
  if pyFalsyO mb.anchored_tx then
    updateFirst (fun x => x.batch_id == b)
      (fun x => { x with anchored_tx := some (txOf s b mb) }) st.batches
  else st.batches

/-- Evaluation of `anchor_batch` when the batch exists and no anchor
record does: a fresh `anchored` record with `anchored_at = now`. -/
theorem anchor_batch_fresh (st : AuditStore) (b : String) (chain : Option String)
    (s : AnchorSettings) (t : Nat) (mb : MerkleBatchRow)
    (hmb : findBatch st b = some mb)
    (hA : findAnchor st b (pyOrStr chain s.anchorChain) = none) :
    anchor_batch st b chain s t =
      (⟨batchesAfter st b mb s,
        st.anchors ++ [⟨b, pyOrStr chain s.anchorChain, some (txOf s b mb),
          "anchored", some t⟩]⟩,
       some ⟨b, pyOrStr chain s.anchorChain, "anchored", some (txOf s b mb), some t,
         mb.merkle_root, mb.leaf_count⟩) := by
  unfold anchor_batch batchesAfter txOf
  rw [hmb]
  simp only [hA]

/-- Evaluation of `anchor_batch` when an anchor record already exists:
the record is refreshed in place, `anchored_at` only when absent. -/
theorem anchor_batch_existing (st : AuditStore) (b : String) (chain : Option String)
    (s : AnchorSettings) (t : Nat) (mb : MerkleBatchRow) (ar : AnchorRecordRow)
    (hmb : findBatch st b = some mb)
    (hA : findAnchor st b (pyOrStr chain s.anchorChain) = some ar) :
    anchor_batch st b chain s t =
      (⟨batchesAfter st b mb s,
        updateFirst (fun a => a.batch_id == b && a.chain == pyOrStr chain s.anchorChain)
          (fun _ => { ar with
            chain := pyOrStr chain s.anchorChain
            status := "anchored"
            tx_hash := some (pyOrStr ar.tx_hash (txOf s b mb))
            anchored_at := (match ar.anchored_at with
              | some u => some u
              | none => some t) }) st.anchors⟩,
       some ⟨b, pyOrStr chain s.anchorChain, "anchored",
         some (pyOrStr ar.tx_hash (txOf s b mb)),
         (match ar.anchored_at with
           | some u => some u
           | none => some t),
         mb.merkle_root, mb.leaf_count⟩) := by
  unfold anchor_batch batchesAfter txOf
  rw [hmb]
  simp only [hA]

/-- Python `x or x` is `x`. -/
theorem pyOrStr_some_self (x : String) : pyOrStr (some x) x = x := by
  by_cases hx : x = "" <;> simp [pyOrStr, hx]

/-- C7: on an existing batch, a second `anchor_batch` with the same
arguments returns the same summary (same `tx_hash`, status `anchored`) and
leaves the whole store unchanged; `anchored_at` is set to the first call's
instant when no record existed and is never overwritten afterwards. -/
theorem C7_anchor_batch_idempotent (st : AuditStore) (b : String)
    (chain : Option String) (s : AnchorSettings) (t1 t2 : Nat)
    (mb : MerkleBatchRow) (hmb : findBatch st b = some mb) :
    anchor_batch (anchor_batch st b chain s t1).1 b chain s t2 =
      anchor_batch st b chain s t1 ∧
    (∃ res, (anchor_batch st b chain s t1).2 = some res ∧ res.status = "anchored") ∧
    (findAnchor st b (pyOrStr chain s.anchorChain) = none →
      ∃ ar, findAnchor (anchor_batch st b chain s t1).1 b
          (pyOrStr chain s.anchorChain) = some ar ∧ ar.anchored_at = some t1) ∧
    (∀ ar0 t0, findAnchor st b (pyOrStr chain s.anchorChain) = some ar0 →
      ar0.anchored_at = some t0 →
      ∃ ar, findAnchor (anchor_batch st b chain s t1).1 b
          (pyOrStr chain s.anchorChain) = some ar ∧ ar.anchored_at = some t0) := by
  have hmbq : st.batches.find? (fun x => x.batch_id == b) = some mb := hmb
  have hpmb := List.find?_some hmbq
  -- the batch row after the first call, satisfying the same query
  have hmb1 : ∀ anch : List AnchorRecordRow,
      findBatch ⟨batchesAfter st b mb s, anch⟩ b =
        some (if pyFalsyO mb.anchored_tx then
          { mb with anchored_tx := some (txOf s b mb) } else mb) := by
    intro anch
    unfold findBatch batchesAfter
    by_cases hf : pyFalsyO mb.anchored_tx
    · rw [if_pos hf, if_pos hf]
      exact find?_updateFirst_some _ _ _ mb hmbq hpmb
    · rw [if_neg hf, if_neg hf]
      exact hmb
  set mb1 : MerkleBatchRow := if pyFalsyO mb.anchored_tx then
    { mb with anchored_tx := some (txOf s b mb) } else mb with hmb1def
  have hroot : mb1.merkle_root = mb.merkle_root := by
    rw [hmb1def]; split <;> rfl
  have hcnt : mb1.leaf_count = mb.leaf_count := by
    rw [hmb1def]; split <;> rfl
  have htx : txOf s b mb1 = txOf s b mb := by
    rw [hmb1def]
    split
    · exact pyOrStr_some_absorb mb.anchored_tx (s.anchorTxPfx ++ b)
    · rfl
  -- the second call leaves the batches unchanged
  have hbatches : ∀ anch : List AnchorRecordRow,
      batchesAfter ⟨batchesAfter st b mb s, anch⟩ b mb1 s = batchesAfter st b mb s := by
    intro anch
    by_cases hf : pyFalsyO mb.anchored_tx
    · by_cases hz : txOf s b mb = ""
      · have hm1tx : mb1.anchored_tx = some (txOf s b mb) := by
          rw [hmb1def, if_pos hf]
        have hff : pyFalsyO mb1.anchored_tx = true := by
          rw [hm1tx]; simp [pyFalsyO, hz]
        unfold batchesAfter
        rw [hff, if_pos rfl]
        refine updateFirst_found_self _ _ _ mb1 ?_ ?_
        · have := hmb1 anch
          unfold findBatch at this
          simpa [batchesAfter, hf, ← hmb1def] using this
        · rw [htx, hmb1def, if_pos hf]
      · have hff : pyFalsyO mb1.anchored_tx = false := by
          rw [hmb1def, if_pos hf]
          simp [pyFalsyO, hz]
        unfold batchesAfter
        rw [hff]
        simp
    · have hff : pyFalsyO mb1.anchored_tx = false := by
        rw [hmb1def, if_neg hf]
        simpa [pyFalsyO] using hf
      unfold batchesAfter
      rw [hff]
      simp
  rcases hA : findAnchor st b (pyOrStr chain s.anchorChain) with _ | ar0
  · -- no prior anchor record
    have hc1 := anchor_batch_fresh st b chain s t1 mb hmb hA
    set cn := pyOrStr chain s.anchorChain with hcn
    set arN : AnchorRecordRow := ⟨b, cn, some (txOf s b mb), "anchored", some t1⟩ with harN
    have hpn : (fun a : AnchorRecordRow => a.batch_id == b && a.chain == cn) arN = true := by
      simp [harN]
    have hA1 : findAnchor ⟨batchesAfter st b mb s, st.anchors ++ [arN]⟩ b cn = some arN := by
      unfold findAnchor
      rw [find?_append_right _ _ _ hA]
      simp [harN]
    have hfb1 : findBatch ⟨batchesAfter st b mb s, st.anchors ++ [arN]⟩ b = some mb1 :=
      hmb1 (st.anchors ++ [arN])
    have hc2 := anchor_batch_existing ⟨batchesAfter st b mb s, st.anchors ++ [arN]⟩
      b chain s t2 mb1 arN hfb1 hA1
    have har2 : ({ arN with
        chain := cn
        status := "anchored"
        tx_hash := some (pyOrStr arN.tx_hash (txOf s b mb1))
        anchored_at := (match arN.anchored_at with
          | some u => some u
          | none => some t2) }) = arN := by
      rw [htx]
      simp [harN, pyOrStr_some_self]
    have hupd : updateFirst (fun a => a.batch_id == b && a.chain == cn)
        (fun _ => { arN with
          chain := cn
          status := "anchored"
          tx_hash := some (pyOrStr arN.tx_hash (txOf s b mb1))
          anchored_at := (match arN.anchored_at with
            | some u => some u
            | none => some t2) }) (st.anchors ++ [arN]) = st.anchors ++ [arN] :=
      updateFirst_found_self _ _ _ arN hA1 har2
    refine ⟨?_, ?_, ?_, ?_⟩
    · have h1 : (anchor_batch st b chain s t1).1 =
          (⟨batchesAfter st b mb s, st.anchors ++ [arN]⟩ : AuditStore) := by rw [hc1]
      rw [h1, hc2, hc1]
      simp [hbatches, hupd, htx, harN, pyOrStr_some_self, hroot, hcnt]
      rw [← hcn]
      exact updateFirst_found_self _ _ _ arN hA1 harN.symm
    · refine ⟨⟨b, cn, "anchored", some (txOf s b mb), some t1,
        mb.merkle_root, mb.leaf_count⟩, ?_, rfl⟩
      rw [hc1]
    · intro _
      refine ⟨arN, ?_, by simp [harN]⟩
      rw [hc1]
      exact hA1
    · intro ar0 t0 h0 _
      exact Option.noConfusion h0
  · -- an anchor record already exists
    have hc1 := anchor_batch_existing st b chain s t1 mb ar0 hmb hA
    set cn := pyOrStr chain s.anchorChain with hcn
    set ar1 : AnchorRecordRow := { ar0 with
      chain := cn
      status := "anchored"
      tx_hash := some (pyOrStr ar0.tx_hash (txOf s b mb))
      anchored_at := (match ar0.anchored_at with
        | some u => some u
        | none => some t1) } with har1
    have hAq : st.anchors.find? (fun a => a.batch_id == b && a.chain == cn) = some ar0 := hA
    have hpar0 := List.find?_some hAq
    have hid0 : (ar0.batch_id == b) = true := by
      have := hpar0
      simp only [Bool.and_eq_true] at this
      exact this.1
    have hpar1 : (fun a : AnchorRecordRow => a.batch_id == b && a.chain == cn) ar1 = true := by
      simp [har1, hid0]
    have hA1 : findAnchor ⟨batchesAfter st b mb s,
        updateFirst (fun a => a.batch_id == b && a.chain == cn)
          (fun _ => ar1) st.anchors⟩ b cn = some ar1 :=
      find?_updateFirst_some _ _ st.anchors ar0 hAq hpar1
    have hfb1 := hmb1 (updateFirst (fun a => a.batch_id == b && a.chain == cn)
      (fun _ => ar1) st.anchors)
    have hc2 := anchor_batch_existing ⟨batchesAfter st b mb s,
        updateFirst (fun a => a.batch_id == b && a.chain == cn)
          (fun _ => ar1) st.anchors⟩ b chain s t2 mb1 ar1 hfb1 hA1
    have har2 : ({ ar1 with
        chain := cn
        status := "anchored"
        tx_hash := some (pyOrStr ar1.tx_hash (txOf s b mb1))
        anchored_at := (match ar1.anchored_at with
          | some u => some u
          | none => some t2) }) = ar1 := by
      rw [htx]
      cases h0 : ar0.anchored_at <;>
        simp [har1, pyOrStr_some_absorb, h0]
    have hA1q : (updateFirst (fun a => a.batch_id == b && a.chain == cn)
        (fun _ => ar1) st.anchors).find?
        (fun a => a.batch_id == b && a.chain == cn) = some ar1 := hA1
    have hupd := updateFirst_found_self (fun a => a.batch_id == b && a.chain == cn)
      (fun _ => { ar1 with
        chain := cn
        status := "anchored"
        tx_hash := some (pyOrStr ar1.tx_hash (txOf s b mb1))
        anchored_at := (match ar1.anchored_at with
          | some u => some u
          | none => some t2) })
      (updateFirst (fun a => a.batch_id == b && a.chain == cn) (fun _ => ar1) st.anchors)
      ar1 hA1q har2
    refine ⟨?_, ?_, ?_, ?_⟩
    · have h1 : (anchor_batch st b chain s t1).1 =
          (⟨batchesAfter st b mb s,
            updateFirst (fun a => a.batch_id == b && a.chain == cn)
              (fun _ => ar1) st.anchors⟩ : AuditStore) := by rw [hc1]
      rw [h1, hc2, hc1]
      congr 1
      · congr 1
        exact hbatches _
      · cases h0 : ar0.anchored_at <;>
          simp [har1, pyOrStr_some_absorb, htx, hroot, hcnt, h0, ← hcn]
    · refine ⟨⟨b, cn, "anchored", some (pyOrStr ar0.tx_hash (txOf s b mb)),
        (match ar0.anchored_at with
          | some u => some u
          | none => some t1), mb.merkle_root, mb.leaf_count⟩, ?_, rfl⟩
      rw [hc1]
    · intro h0
      exact Option.noConfusion h0
    · intro ar0' t0 h0 ht0
      obtain rfl : ar0 = ar0' := Option.some.inj h0
      refine ⟨ar1, ?_, ?_⟩
      · rw [hc1]
        exact hA1
      · rw [har1]
        simp [ht0]

/-- A store with one unanchored batch. -/
def c7Store : AuditStore :=
  ⟨[⟨"B1", "rootabc", 3, none⟩], []⟩

/-- C7 instantiated: double-anchoring the concrete batch on the default
chain at instants 5 and 9 is a no-op the second time. -/
theorem C7_anchor_batch_witness :
    anchor_batch (anchor_batch c7Store "B1" none ⟨"mock", "mock-"⟩ 5).1
        "B1" none ⟨"mock", "mock-"⟩ 9 =
      anchor_batch c7Store "B1" none ⟨"mock", "mock-"⟩ 5 :=
  (C7_anchor_batch_idempotent c7Store "B1" none ⟨"mock", "mock-"⟩ 5 9
    ⟨"B1", "rootabc", 3, none⟩ (by decide)).1

/-! ## Monthly review flow (report-master/app_mcp/graph/mcp_flow.py and
services/human_review_service.py)

The LangGraph dict state is embedded by the fields the review subgraph
reads or writes; an eval result dict is represented by its grade. The
external notifier (`notify_monthly_report`) is recorded as an event list
in the state. Only the interrupt-compiled subgraph reachable from
`human_review` is modelled: `summarize_conclusion → generate_report →
human_review (interrupt) → notify_approved_report → END`, with
`route_after_human_review` on the conditional edge. -/

/-- The dictionary `summarize_conclusion` stores under `summary`. -/
structure FlowSummary where
  final_grade : String
  key_points : List String
  human_feedback : String
  revision_status : Option String
deriving DecidableEq, Repr

/-- The dictionary `human_review` stores under `human_review`. -/
structure ReviewInfo where
  decision : String
  comment : String
deriving DecidableEq, Repr

/-- The workflow state (`MCPState`). `revision_count`/`max_revisions`
carry the 0 / 3 defaults the source applies on read. -/
structure MCPState where
  period : Option String
  collateral_grade : Option String
  peg_grade : Option String
  disclosure_grade : Option String
  liquidity_grade : Option String
  por_grade : Option String
  consistency_status : Option String
  summary : Option FlowSummary
  report_path : Option String
  human_decision : Option String
  human_feedback : Option String
  human_review : Option ReviewInfo
  revision_count : Nat
  max_revisions : Nat
  revision_limit_reached : Option Bool
  notifications : List (String × String × Option FlowSummary)
deriving DecidableEq, Repr

/-- The grade map `{A:4, B:3, C:2, D:1, F:0}`; unknown grades score 2
(`grade_map.get(g, 2)`). -/
def gradeNum (g : String) : Nat :=
  if g = "A" then 4 else if g = "B" then 3 else if g = "C" then 2
  else if g = "D" then 1 else if g = "F" then 0 else 2

/-- The reverse grade map. -/
def gradeOfNum (n : Nat) : String :=
  if n = 4 then "A" else if n = 3 then "B" else if n = 2 then "C"
  else if n = 1 then "D" else "F"

/-- Python `f"... {x}"` of an optional grade (`None` prints as "None"). -/
def pyShowOpt (o : Option String) : String :=
  match o with
  | some s => s
  | none => "None"

/-- `summarize_conclusion`: at the revision limit with a pending revise it
emits the PENDING / limit_reached summary; otherwise the worst grade of
the five dimensions, with reviewer feedback appended to the key points. -/
def summarize_conclusion (s : MCPState) : MCPState :=
  if s.human_decision.getD "pending" = "revise" ∧ s.max_revisions ≤ s.revision_count then
    { s with summary := some ⟨"PENDING",
        ["자동 재생성(max_revisions) 한도에 도달했습니다.",
         "추가 수정은 사람이 직접 검토해야 합니다."],
        pyStrip (pyOrStr s.human_feedback ""),
        some "limit_reached"⟩ }
  else
    { s with summary := some ⟨
        gradeOfNum (([s.collateral_grade.getD "C", s.peg_grade.getD "C",
          s.disclosure_grade.getD "C", s.liquidity_grade.getD "C",
          s.por_grade.getD "C"].map gradeNum).foldl min 4),
        (["Collateral grade: " ++ pyShowOpt s.collateral_grade,
          "Peg grade: " ++ pyShowOpt s.peg_grade,
          "Disclosure grade: " ++ pyShowOpt s.disclosure_grade,
          "Liquidity grade: " ++ pyShowOpt s.liquidity_grade,
          "PoR grade: " ++ pyShowOpt s.por_grade,
          "Consistency status: " ++ s.consistency_status.getD "unknown"] ++
         (if pyStrip (pyOrStr s.human_feedback "") ≠ "" then
           ["[Reviewer Feedback] " ++ pyStrip (pyOrStr s.human_feedback "")] else [])),
        pyStrip (pyOrStr s.human_feedback ""),
        some (if s.human_decision.getD "pending" = "revise" then
          "revised" else "initial")⟩ }

/-- The `human_review` node: records the review metadata only. -/
def human_review (s : MCPState) : MCPState :=
  { s with human_review := some ⟨s.human_decision.getD "pending",
      "awaiting-human-review"⟩ }

/-- `generate_report`: writes `REP-<period>.docx` (the docx rendering is an
external effect; the state keeps the path). -/
def generate_report (s : MCPState) : MCPState :=
  { s with report_path := some ("REP-" ++ s.period.getD "2025-10" ++ ".docx") }

/-- `notify_approved_report`: sends the terminal notification (recorded as
an event) and marks the decision approved. -/
def notify_approved_report (s : MCPState) : MCPState :=
  { s with
    notifications := s.notifications ++ [(s.period.getD "2025-10", "APPROVED", s.summary)]
    human_decision := some "approve" }

/-- `route_after_human_review`: `approve`/`revise` route by decision — the
revise branch also increments `revision_count` in the state — and any
other value falls through to `approve`. -/
def route_after_human_review (s : MCPState) : String × MCPState :=
  if s.human_decision = some "approve" then ("approve", s)
  else if s.human_decision = some "revise" then
    ("revise", { s with revision_count := s.revision_count + 1 })
  else ("approve", s)

/-- The nodes of the review subgraph, plus the END sentinel. -/
inductive FlowNode where
  | summarize_conclusion
  | generate_report
  | human_review
  | notify_approved_report
  | terminal
deriving DecidableEq, Repr

/-- Apply one node's function. -/
def applyNode : FlowNode → MCPState → MCPState
  | .summarize_conclusion, s => summarize_conclusion s
  | .generate_report, s => generate_report s
  | .human_review, s => human_review s
  | .notify_approved_report, s => notify_approved_report s
  | .terminal, s => s

/-- The edge relation of the interrupt-compiled graph: static edges
`summarize_conclusion → generate_report → human_review` and
`notify_approved_report → END`, and the conditional edge after
`human_review` mapping `approve ↦ notify_approved_report` and
`revise ↦ summarize_conclusion`. -/
def flowNext : FlowNode → MCPState → FlowNode × MCPState
  | .summarize_conclusion, s => (.generate_report, s)
  | .generate_report, s => (.human_review, s)
  | .human_review, s =>
      let r := route_after_human_review s
      (if r.1 = "approve" then .notify_approved_report else .summarize_conclusion, r.2)
  | .notify_approved_report, s => (.terminal, s)
  | .terminal, s => (.terminal, s)

/-- A run either reaches END or suspends at the `human_review` interrupt. -/
inductive RunOutcome where
  | suspended (s : MCPState)
  | finished (s : MCPState)
deriving DecidableEq, Repr

/-- Execute from a node under `interrupt_before=["human_review"]`: run the
node, follow its edge, and stop before re-entering `human_review`. The
fuel bounds the executor steps (the source's recursion limit). -/
def runFrom : Nat → FlowNode → MCPState → RunOutcome
  | 0, _, s => .suspended s
  | fuel + 1, n, s =>
      match flowNext n (applyNode n s) with
      | (.terminal, s2) => .finished s2
      | (.human_review, s2) => .suspended s2
      | (m, s2) => runFrom fuel m s2

/-- The state-merge step of `resume_human_review_flow`: set the decision
(and the comment when non-empty), bump `revision_count` on revise, and
flag — and annotate the checkpointed feedback — when the limit is
reached. -/
def resumeState (s : MCPState) (decision : String)
    (comment : Option String) : MCPState :=
  let s1 := { s with human_decision := some decision }
  let s2 := match comment with
    | some c => if c = "" then s1 else { s1 with human_feedback := some c }
    | none => s1
  let rc := if decision = "revise" then s.revision_count + 1 else s.revision_count
  let s3 := if decision = "revise" then { s2 with revision_count := rc } else s2
  if s.max_revisions ≤ rc then
    { s3 with
      human_feedback := some (pyStrip (pyOrStr s.human_feedback "" ++
        "\n[자동 재생성 한도 도달: 수동 검토 필요]"))
      revision_limit_reached := some true }
  else { s3 with revision_limit_reached := some false }

/-- `resume_human_review_flow`: merge the decision into the checkpointed
state, then re-invoke the graph from the `human_review` interrupt. -/
def resume_human_review_flow (s : MCPState) (decision : String)
    (comment : Option String) (fuel : Nat) : RunOutcome :=
  runFrom fuel .human_review (resumeState s decision comment)

/-- Whether a run suspended at the interrupt. -/
def runIsSuspended : RunOutcome → Bool
  | .suspended _ => true
  | .finished _ => false

/-- The state a run ended in. -/
def runState : RunOutcome → MCPState
  | .suspended s => s
  | .finished s => s

/-- The checkpointed state for the revision-limit scenario: a completed
first pass (grades filled, report generated) suspended at `human_review`
with `revision_count` already at `max_revisions` (3). -/
def c4State : MCPState :=
  { period := some "2025-10"
    collateral_grade := some "A"
    peg_grade := some "B"
    disclosure_grade := some "A"
    liquidity_grade := some "B"
    por_grade := some "A"
    consistency_status := some "ok"
    summary := some ⟨"B", [], "", some "initial"⟩
    report_path := some "REP-2025-10.docx"
    human_decision := some "pending"
    human_feedback := none
    human_review := none
    revision_count := 3
    max_revisions := 3
    revision_limit_reached := some false
    notifications := [] }

/-- C4 (counterexample): resuming `c4State` with decision `revise` at the
revision limit re-suspends at the `human_review` interrupt, with the
PENDING / limit_reached summary in place and no notification sent: the
workflow does not proceed to `notify_approved_report`. -/
theorem C4_revise_at_limit_suspends_again :
    runIsSuspended (resume_human_review_flow c4State "revise" none 10) = true ∧
    (runState (resume_human_review_flow c4State "revise" none 10)).summary =
      some ⟨"PENDING",
        ["자동 재생성(max_revisions) 한도에 도달했습니다.",
         "추가 수정은 사람이 직접 검토해야 합니다."],
        "[자동 재생성 한도 도달: 수동 검토 필요]", some "limit_reached"⟩ ∧
    (runState (resume_human_review_flow c4State "revise" none 10)).notifications = [] := by
  decide

/-- C4 (amended): a resume with decision `revise` when `revision_count`
has reached `max_revisions` makes `summarize_conclusion` emit the
`final_grade = "PENDING"` / `revision_status = "limit_reached"` summary,
and the run then regenerates the report and suspends again at the
`human_review` interrupt with the notification log unchanged (it does not
reach `notify_approved_report`). -/
theorem C4_revise_at_limit_pending_then_suspend (s : MCPState) (c : Option String)
    (k : Nat) (h : s.max_revisions ≤ s.revision_count) :
    ∃ s2, resume_human_review_flow s "revise" c (k + 1 + 1 + 1) = RunOutcome.suspended s2 ∧
      (∃ fb, s2.summary = some ⟨"PENDING",
        ["자동 재생성(max_revisions) 한도에 도달했습니다.",
         "추가 수정은 사람이 직접 검토해야 합니다."],
        fb, some "limit_reached"⟩) ∧
      s2.notifications = s.notifications := by
  have h1 : s.max_revisions ≤ s.revision_count + 1 := h.trans (Nat.le_succ _)
  have h2 : s.max_revisions ≤ s.revision_count + 1 + 1 := h1.trans (Nat.le_succ _)
  have e4 : resumeState s "revise" c =
      ⟨s.period, s.collateral_grade, s.peg_grade, s.disclosure_grade, s.liquidity_grade,
       s.por_grade, s.consistency_status, s.summary, s.report_path, some "revise",
       some (pyStrip (pyOrStr s.human_feedback "" ++ "\n[자동 재생성 한도 도달: 수동 검토 필요]")),
       s.human_review, s.revision_count + 1, s.max_revisions, some true, s.notifications⟩ := by
    cases c with
    | none =>
        simp only [resumeState, reduceIte]
        rw [if_pos h1]
    | some cmt =>
        by_cases hc : cmt = "" <;>
          simp only [resumeState, reduceIte, if_pos, if_neg, hc, ite_true, ite_false] <;>
          rw [if_pos h1]
  have estep : resume_human_review_flow s "revise" c (k + 1 + 1 + 1) =
      RunOutcome.suspended
      ⟨s.period, s.collateral_grade, s.peg_grade, s.disclosure_grade, s.liquidity_grade,
       s.por_grade, s.consistency_status,
       some ⟨"PENDING",
        ["자동 재생성(max_revisions) 한도에 도달했습니다.",
         "추가 수정은 사람이 직접 검토해야 합니다."],
        pyStrip (pyOrStr (some (pyStrip (pyOrStr s.human_feedback "" ++
          "\n[자동 재생성 한도 도달: 수동 검토 필요]"))) ""),
        some "limit_reached"⟩,
       some ("REP-" ++ s.period.getD "2025-10" ++ ".docx"), some "revise",
       some (pyStrip (pyOrStr s.human_feedback "" ++ "\n[자동 재생성 한도 도달: 수동 검토 필요]")),
       some ⟨"revise", "awaiting-human-review"⟩,
       s.revision_count + 1 + 1, s.max_revisions, some true, s.notifications⟩ := by
    rw [resume_human_review_flow, e4]
    show runFrom (k + 1 + 1) FlowNode.summarize_conclusion
      ⟨s.period, s.collateral_grade, s.peg_grade, s.disclosure_grade, s.liquidity_grade,
       s.por_grade, s.consistency_status, s.summary, s.report_path, some "revise",
       some (pyStrip (pyOrStr s.human_feedback "" ++ "\n[자동 재생성 한도 도달: 수동 검토 필요]")),
       some ⟨"revise", "awaiting-human-review"⟩,
       s.revision_count + 1 + 1, s.max_revisions, some true, s.notifications⟩ = _
    rw [show runFrom (k + 1 + 1) FlowNode.summarize_conclusion
      ⟨s.period, s.collateral_grade, s.peg_grade, s.disclosure_grade, s.liquidity_grade,
       s.por_grade, s.consistency_status, s.summary, s.report_path, some "revise",
       some (pyStrip (pyOrStr s.human_feedback "" ++ "\n[자동 재생성 한도 도달: 수동 검토 필요]")),
       some ⟨"revise", "awaiting-human-review"⟩,
       s.revision_count + 1 + 1, s.max_revisions, some true, s.notifications⟩ =
      runFrom (k + 1) FlowNode.generate_report (summarize_conclusion
      ⟨s.period, s.collateral_grade, s.peg_grade, s.disclosure_grade, s.liquidity_grade,
       s.por_grade, s.consistency_status, s.summary, s.report_path, some "revise",
       some (pyStrip (pyOrStr s.human_feedback "" ++ "\n[자동 재생성 한도 도달: 수동 검토 필요]")),
       some ⟨"revise", "awaiting-human-review"⟩,
       s.revision_count + 1 + 1, s.max_revisions, some true, s.notifications⟩) from rfl]
    rw [show summarize_conclusion
      ⟨s.period, s.collateral_grade, s.peg_grade, s.disclosure_grade, s.liquidity_grade,
       s.por_grade, s.consistency_status, s.summary, s.report_path, some "revise",
       some (pyStrip (pyOrStr s.human_feedback "" ++ "\n[자동 재생성 한도 도달: 수동 검토 필요]")),
       some ⟨"revise", "awaiting-human-review"⟩,
       s.revision_count + 1 + 1, s.max_revisions, some true, s.notifications⟩ =
      ⟨s.period, s.collateral_grade, s.peg_grade, s.disclosure_grade, s.liquidity_grade,
       s.por_grade, s.consistency_status,
       some ⟨"PENDING",
        ["자동 재생성(max_revisions) 한도에 도달했습니다.",
         "추가 수정은 사람이 직접 검토해야 합니다."],
        pyStrip (pyOrStr (some (pyStrip (pyOrStr s.human_feedback "" ++
          "\n[자동 재생성 한도 도달: 수동 검토 필요]"))) ""),
        some "limit_reached"⟩,
       s.report_path, some "revise",
       some (pyStrip (pyOrStr s.human_feedback "" ++ "\n[자동 재생성 한도 도달: 수동 검토 필요]")),
       some ⟨"revise", "awaiting-human-review"⟩,
       s.revision_count + 1 + 1, s.max_revisions, some true, s.notifications⟩ from
      if_pos ⟨rfl, h2⟩]
    rfl
  exact ⟨_, estep, ⟨_, rfl⟩, rfl⟩

/-- C4 witness: the amended theorem applied to `c4State`. -/
theorem C4_revise_at_limit_witness :
    c4State.max_revisions ≤ c4State.revision_count ∧
    (∃ s2, resume_human_review_flow c4State "revise" none (7 + 1 + 1 + 1) =
        RunOutcome.suspended s2 ∧
      (∃ fb, s2.summary = some ⟨"PENDING",
        ["자동 재생성(max_revisions) 한도에 도달했습니다.",
         "추가 수정은 사람이 직접 검토해야 합니다."],
        fb, some "limit_reached"⟩) ∧
      s2.notifications = c4State.notifications) :=
  ⟨by decide, C4_revise_at_limit_pending_then_suspend c4State none 7 (by decide)⟩

/-- A checkpointed state whose review decision was never set: the resume
path did not run, so `human_decision` is absent. -/
def c10State : MCPState :=
  { period := some "2025-10"
    collateral_grade := some "A"
    peg_grade := some "A"
    disclosure_grade := some "A"
    liquidity_grade := some "A"
    por_grade := some "A"
    consistency_status := some "ok"
    summary := some ⟨"A", [], "", some "initial"⟩
    report_path := some "REP-2025-10.docx"
    human_decision := none
    human_feedback := none
    human_review := none
    revision_count := 0
    max_revisions := 3
    revision_limit_reached := none
    notifications := [] }

/-- C10: when `human_decision` is neither `approve` nor `revise`,
`route_after_human_review` returns `approve` without touching the state,
and continuing the graph from `human_review` runs
`notify_approved_report` — appending the APPROVED notification and
marking the decision approved — and terminates. -/
theorem C10_missing_decision_treated_as_approval (s : MCPState) (k : Nat)
    (h1 : s.human_decision ≠ some "approve") (h2 : s.human_decision ≠ some "revise") :
    route_after_human_review s = ("approve", s) ∧
    runFrom (k + 1 + 1) .human_review s =
      RunOutcome.finished (notify_approved_report (human_review s)) ∧
    (notify_approved_report (human_review s)).human_decision = some "approve" ∧
    (notify_approved_report (human_review s)).notifications =
      s.notifications ++ [(s.period.getD "2025-10", "APPROVED", s.summary)] := by
  have hr : route_after_human_review s = ("approve", s) := by
    simp only [route_after_human_review, if_neg h1, if_neg h2]
  have hr5 : route_after_human_review (human_review s) = ("approve", human_review s) := by
    simp only [route_after_human_review, human_review]
    rw [if_neg h1, if_neg h2]
  refine ⟨hr, ?_, rfl, rfl⟩
  show (match flowNext FlowNode.human_review (applyNode FlowNode.human_review s) with
    | (FlowNode.terminal, s2) => RunOutcome.finished s2
    | (FlowNode.human_review, s2) => RunOutcome.suspended s2
    | (m, s2) => runFrom (k + 1) m s2) = _
  rw [show flowNext FlowNode.human_review (applyNode FlowNode.human_review s) =
    (if (route_after_human_review (human_review s)).1 = "approve" then
      FlowNode.notify_approved_report else FlowNode.summarize_conclusion,
     (route_after_human_review (human_review s)).2) from rfl]
  rw [hr5]
  rfl

/-- C10 witness: the theorem applied to the unset-decision state. -/
theorem C10_missing_decision_witness :
    (c10State.human_decision ≠ some "approve") ∧
    (c10State.human_decision ≠ some "revise") ∧
    (route_after_human_review c10State = ("approve", c10State) ∧
     runFrom (0 + 1 + 1) .human_review c10State =
       RunOutcome.finished (notify_approved_report (human_review c10State)) ∧
     (notify_approved_report (human_review c10State)).human_decision = some "approve" ∧
     (notify_approved_report (human_review c10State)).notifications =
       c10State.notifications ++
         [(c10State.period.getD "2025-10", "APPROVED", c10State.summary)]) :=
  ⟨by decide, by decide,
    C10_missing_decision_treated_as_approval c10State 0 (by decide) (by decide)⟩

end Koscom
